import Mathlib

/-!
# Page-Replacement-Simulator: the React front ends

A shallow embedding of the three form components of the repository

* `frontend/src/components/temp.jsx` (`PageReplacementSimulation`, the simple form
  with detail views and the graphical comparison),
* the simple form of `frontend01` (`PageReplacementSimulation`, an earlier copy
  without views and charts),
* the extended virtual-memory form of `frontend01` (`MemorySimulation`),

(in the source tree the two `frontend01` components sit in
`frontend01/src/components/MemorySimulation.jsx` and
`frontend01/src/components/temp.jsx`; line numbers below are those of the file that
declares the component named), together with the ECMAScript built-ins they call
(`String.prototype.split`, `String.prototype.trim`, `parseInt`, `isNaN`, `||`,
`Math.max`, `Math.min`, `Array.prototype.join`).

Conventions of the embedding.

* A JavaScript string is a Lean `String`; the built-ins work on its list of
  characters.  None of the characters the built-ins inspect (`,`, white space,
  sign, digits, `x`) is a surrogate, so code points and UTF-16 code units agree.
  Only `formatKey`, which takes a string apart by index, works on the list of
  UTF-16 code units itself.
* A JavaScript Number is a `JSNumber`: `NaN`, the two infinities, or a finite value
  carried as an exact rational.  `parseInt` rounds the integer it reads to the
  nearest double (`toDouble`); the ratio arithmetic of the result cards and charts
  is exact.  The sign of zero is not distinguished.
* The `await`ed `fetch` is the environment: `handleSubmit` receives a function from
  the request object to a `FetchOutcome` and returns the state left behind once the
  `finally` block has run, together with the `requestData` object it built (if
  any); `Submitted.body` is the JSON text `JSON.stringify` makes of that object,
  which is what is sent.  For the
  component's state machine the same handler is split into `submitStart` and
  `settle`, and the user's clicks are further transitions (`Reachable`).
* Two built-in conversions are parameters rather than definitions: the length
  conversion of `Array.from({ length: text })` in `renderPageTable`, and
  `String.prototype.toUpperCase` in `formatKey`, of which only the ASCII behaviour
  is used.
* The server that answers the forms is not in the source tree.  The section
  `Engine` models it from the specification; every definition there says so.
-/

namespace PageSim

/-! ## ECMAScript built-ins -/

/-- ECMAScript `WhiteSpace` and `LineTerminator` code points: what
`String.prototype.trim` strips and what `parseInt` skips at the start. -/
def isWhiteSpace (c : Char) : Bool :=
  let n := c.toNat
  n = 0x09 || n = 0x0A || n = 0x0B || n = 0x0C || n = 0x0D || n = 0x20 || n = 0xA0 ||
  n = 0x1680 || (0x2000 ≤ n && n ≤ 0x200A) || n = 0x2028 || n = 0x2029 || n = 0x202F ||
  n = 0x205F || n = 0x3000 || n = 0xFEFF

/-- The abstract operation `TrimString(s, start)`. -/
def trimStart (s : List Char) : List Char := s.dropWhile isWhiteSpace

/-- The abstract operation `TrimString(s, end)`. -/
def trimEnd (s : List Char) : List Char := (s.reverse.dropWhile isWhiteSpace).reverse

/-- The method `String.prototype.trim`. -/
def trim (s : List Char) : List Char := trimEnd (trimStart s)

/-- The method `String.prototype.split` with a one-character separator and no limit:
`"".split(",")` is `[""]`, `"1,2,".split(",")` is `["1", "2", ""]`. -/
def split (sep : Char) : List Char → List (List Char)
  | [] => [[]]
  | c :: cs =>
    if c = sep then [] :: split sep cs
    else
      match split sep cs with
      | [] => [[c]]
      | t :: ts => (c :: t) :: ts

/-- A JavaScript Number: `NaN`, `+Infinity`, `-Infinity` or a finite value. -/
inductive JSNumber
  | nan
  | posInf
  | negInf
  | fin (q : ℚ)
deriving DecidableEq

/-- How many low bits of `n` do not fit a 53-bit significand (`fuel` bounds the
search; `n` itself is always enough). -/
def excessBits : Nat → Nat → Nat
  | 0, _ => 0
  | fuel + 1, n => if n < 2 ^ 53 then 0 else excessBits fuel (n / 2) + 1

/-- The Number value of a natural number: `n` rounded to the nearest double, ties
to even; `none` when the rounded value exceeds the largest finite double, in which
case the Number is an infinity.  (For a decimal text of more than 20 significant
digits an engine may first replace the digits after the 20th by `0`; the digits are
taken as written here.) -/
def toDouble (n : Nat) : Option Nat :=
  if n < 2 ^ 53 then some n
  else
    let e := excessBits n n
    let q := n / 2 ^ e
    let r := n % 2 ^ e
    let half := 2 ^ (e - 1)
    let q' := if half < r ∨ (r = half ∧ q % 2 = 1) then q + 1 else q
    let v := q' * 2 ^ e
    if v < 2 ^ 1024 then some v else none

/-- Value of a character as a digit: `0`-`9`, then `a`-`z` and `A`-`Z` for 10-35. -/
def digitValue (c : Char) : Option Nat :=
  let n := c.toNat
  if 48 ≤ n ∧ n ≤ 57 then some (n - 48)
  else if 97 ≤ n ∧ n ≤ 122 then some (n - 87)
  else if 65 ≤ n ∧ n ≤ 90 then some (n - 55)
  else none

/-- Whether `c` is a digit of the given radix. -/
def isRadixDigit (radix : Nat) (c : Char) : Bool :=
  match digitValue c with
  | some d => d < radix
  | none => false

/-- The mathematical integer a digit string denotes in the given radix. -/
def digitsToNat (radix : Nat) (ds : List Char) : Nat :=
  ds.foldl (fun acc c => acc * radix + (digitValue c).getD 0) 0

/-- The Number value of `sign × mathInt`: the integer rounded to a double, or the
infinity of its sign when it is out of range. -/
def signedNumber (neg : Bool) (mathInt : Nat) : JSNumber :=
  match toDouble mathInt with
  | none => if neg then .negInf else .posInf
  | some v => .fin (if neg then -(v : ℚ) else (v : ℚ))

/-- The global `parseInt(string)` called with one argument: skip leading white
space, read an optional sign, an optional `0x`/`0X` prefix (radix 16, otherwise
radix 10), then the longest run of digits; `NaN` when that run is empty, otherwise
the Number value of the signed integer. -/
def parseInt (input : List Char) : JSNumber :=
  let s := trimStart input
  let neg : Bool := s.head? = some '-'
  let s := if s.head? = some '-' ∨ s.head? = some '+' then s.tail else s
  let hex : Bool := s.take 2 = ['0', 'x'] ∨ s.take 2 = ['0', 'X']
  let radix := if hex then 16 else 10
  let s := if hex then s.drop 2 else s
  let z := s.takeWhile (isRadixDigit radix)
  if z = [] then .nan else signedNumber neg (digitsToNat radix z)

/-- The global `isNaN` on a Number. -/
def isNaN (x : JSNumber) : Bool :=
  match x with
  | .nan => true
  | _ => false

namespace JSNumber

/-- The function `Number.isInteger`. -/
def isInteger (x : JSNumber) : Bool :=
  match x with
  | .fin q => q.den = 1
  | _ => false

/-- The conversion `ToBoolean` on a Number: `NaN` and zero are falsy. -/
def toBoolean (x : JSNumber) : Bool :=
  match x with
  | .nan => false
  | .fin q => q ≠ 0
  | _ => true

/-- The `+` operator on Numbers, without the rounding of the sum to a double (the
sum is exact whenever it is a double itself, as for two counters below 2^53). -/
def add (x y : JSNumber) : JSNumber :=
  match x, y with
  | .nan, _ => .nan
  | _, .nan => .nan
  | .posInf, .negInf => .nan
  | .negInf, .posInf => .nan
  | .posInf, _ => .posInf
  | _, .posInf => .posInf
  | .negInf, _ => .negInf
  | _, .negInf => .negInf
  | .fin a, .fin b => .fin (a + b)

/-- The `/` operator on Numbers: `0/0` is `NaN`, a non-zero value over zero is an
infinity.  A finite quotient is the exact rational: JavaScript rounds it to the
nearest double, so the two agree where the quotient is a double itself (such as
`0/n`), and statements about other quotients are statements in rational
arithmetic. -/
def div (x y : JSNumber) : JSNumber :=
  match x, y with
  | .nan, _ => .nan
  | _, .nan => .nan
  | .fin a, .fin b =>
    if b = 0 then (if a = 0 then .nan else if 0 < a then .posInf else .negInf)
    else .fin (a / b)
  | .fin _, _ => .fin 0
  | .posInf, .fin b => if 0 ≤ b then .posInf else .negInf
  | .negInf, .fin b => if 0 ≤ b then .negInf else .posInf
  | _, _ => .nan

/-- The `<` operator on Numbers (false when either side is `NaN`). -/
def lt (x y : JSNumber) : Bool :=
  match x, y with
  | .nan, _ => false
  | _, .nan => false
  | .negInf, .negInf => false
  | .negInf, _ => true
  | _, .negInf => false
  | .posInf, _ => false
  | _, .posInf => true
  | .fin a, .fin b => a < b

/-- The `===` operator on Numbers (`NaN` equals nothing). -/
def strictEq (x y : JSNumber) : Bool :=
  match x, y with
  | .nan, _ => false
  | _, .nan => false
  | a, b => a = b

end JSNumber

/-- The call `Math.max(...xs)`: `-Infinity` for no arguments, `NaN` as soon as one argument
is `NaN`. -/
def mathMax (xs : List JSNumber) : JSNumber :=
  xs.foldl (fun acc x => if isNaN acc || isNaN x then .nan else if acc.lt x then x else acc)
    .negInf

/-- The call `Math.min(...xs)`: `+Infinity` for no arguments, `NaN` as soon as one argument
is `NaN`. -/
def mathMin (xs : List JSNumber) : JSNumber :=
  xs.foldl (fun acc x => if isNaN acc || isNaN x then .nan else if x.lt acc then x else acc)
    .posInf

/-- A property value of a posted request body. -/
inductive JSValue
  | num (n : JSNumber)
  | str (s : String)
  | arr (items : List JSNumber)
deriving DecidableEq

/-- An object literal: its own properties in insertion order. -/
abbrev JSObject := List (String × JSValue)

namespace JSObject

/-- Property read `obj[key]`; `none` is `undefined` (no such property). -/
def get? (obj : JSObject) (key : String) : Option JSValue :=
  (obj.find? (fun kv => kv.1 = key)).map (fun kv => kv.2)

/-- Whether the object has the property (it is then written by `JSON.stringify`). -/
def has (obj : JSObject) (key : String) : Bool :=
  (obj.get? key).isSome

/-- Property assignment `obj[key] = value`: replaces the value of an existing
property in place, otherwise appends the property. -/
def set (obj : JSObject) (key : String) (value : JSValue) : JSObject :=
  if obj.has key then obj.map (fun kv => if kv.1 = key then (key, value) else kv)
  else obj ++ [(key, value)]

end JSObject

/-- A value of the JSON text `JSON.stringify` writes for a request body: `null`, a
finite number, a string, or an array of finite numbers and `null`s. -/
inductive JsonValue
  | null
  | num (q : ℚ)
  | str (s : String)
  | arr (items : List (Option ℚ))
deriving DecidableEq

/-- The JSON text of an object, as the members it has, in order. -/
abbrev JsonObject := List (String × JsonValue)

/-- The member of a JSON object under `key`, if it has one. -/
def JsonObject.get? (body : JsonObject) (key : String) : Option JsonValue :=
  (body.find? (fun kv => kv.1 = key)).map (fun kv => kv.2)

/-- What `JSON.stringify` writes for a Number: the number when it is finite, `null`
(here `none`) for `NaN`, `Infinity` and `-Infinity`. -/
def jsonNumber (x : JSNumber) : Option ℚ :=
  match x with
  | .fin q => some q
  | _ => none

/-- What `JSON.stringify` writes for a property value. -/
def jsonValue (value : JSValue) : JsonValue :=
  match value with
  | .num n =>
    match jsonNumber n with
    | some q => .num q
    | none => .null
  | .str s => .str s
  | .arr items => .arr (items.map jsonNumber)

/-- The call `JSON.stringify(obj)` on an object literal: every property is written,
in order, with its value serialised. -/
def jsonStringify (obj : JSObject) : JsonObject :=
  obj.map (fun kv => (kv.1, jsonValue kv.2))

/-! ## The environment: server responses -/

/-- One entry of `history` in a result. -/
structure HistoryEntry where
  step : Nat
  page : Int
  event : String
  action : String
  memory : List (Option Int)
deriving DecidableEq

/-- One element of the JSON array the server answers with.  The two counters are
counts; `hit_ratio` and `fault_ratio` are `none` when the property is absent. -/
structure Result where
  algorithm : String
  total_hits : Nat
  total_page_faults : Nat
  hit_ratio : Option JSNumber := none
  fault_ratio : Option JSNumber := none
  final_memory_state : Option (List (Option Int)) := none
  page_table : Option (List (List (Option Int))) := none
  history : Option (List HistoryEntry) := none
deriving DecidableEq

/-- The JSON body of a non-2xx response, as far as the forms read it: the string
under `error` and the string under `detail`, each `none` when absent. -/
structure ErrorData where
  error : Option String := none
  detail : Option String := none
deriving DecidableEq

/-- What `await fetch(...)` followed by `await response.json()` yields.  An
`Except.error m` body is `response.json()` throwing an exception with message `m`. -/
inductive FetchOutcome
  | rejected (message : String)
  | notOk (errorData : Except String ErrorData)
  | ok (data : Except String (List Result))

/-- The operand `s || fallback` for an optional string property: `undefined` and
the empty string are falsy. -/
def orElse (s : Option String) (fallback : String) : String :=
  match s with
  | some m => if m.data = [] then fallback else m
  | none => fallback

/-- The results a fetch outcome delivers: the parsed body of a 2xx response; `none`
for a rejected request, a non-2xx response and a body that does not parse. -/
def FetchOutcome.data? : FetchOutcome → Option (List Result)
  | .ok (.ok data) => some data
  | _ => none

/-- What a completed `handleSubmit` leaves: the component state and, if it got that
far, the `requestData` object it built for the request (`posted`).  The body sent is
the JSON text of that object, `Submitted.body`; the environment answers as a
function of the object, which determines the text. -/
structure Submitted (σ : Type) where
  state : σ
  posted : Option JSObject

/-- The `body` of the request `handleSubmit` makes: `JSON.stringify(requestData)`
(line 66 of `frontend/src/components/temp.jsx`, and the same line of the two
`frontend01` components). -/
def Submitted.body {σ : Type} (submitted : Submitted σ) : Option JsonObject :=
  submitted.posted.map jsonStringify

/-! ## `PageReplacementSimulation` of `frontend/src/components/temp.jsx` -/

namespace PageReplacementSimulation

/-- The `formData` state (lines 5-9).  `frames` starts as the number `3`, which
`parseInt` first converts to the string `"3"`; an input event stores a string. -/
structure FormData where
  frames : String := "3"
  algorithm : String := "fifo"
  requests : String := "1,2,3,4,1,2,5,1,2,3,4,5"
deriving DecidableEq

/-- The `viewMode` state (line 14): `null` or one of the three views. -/
inductive ViewMode
  | final
  | pageTable
  | details
deriving DecidableEq

/-- The component state (lines 5-16). -/
structure State where
  formData : FormData := {}
  results : List Result := []
  loading : Bool := false
  error : Option String := none
  viewMode : Option ViewMode := none
  activeResultIndex : Nat := 0
  showGraphicalComparison : Bool := false

/-- Lines 36-39: `validateRequests`. -/
def validateRequests (input : String) : Bool :=
  if input.data = [] then false
  else (split ',' input.data).all (fun item => !isNaN (parseInt (trim item)))

/-- Line 53: `formData.requests.split(',').map(num => parseInt(num.trim()))`. -/
def requestsArray (formData : FormData) : List JSNumber :=
  (split ',' formData.requests.data).map (fun num => parseInt (trim num))

/-- Lines 55-59: the `requestData` object literal. -/
def requestData (formData : FormData) : JSObject :=
  [("requests", .arr (requestsArray formData)),
   ("frames", .num (parseInt formData.frames.data)),
   ("algorithm", .str formData.algorithm)]

/-- Lines 76-82: the `catch` block followed by the `finally` block. -/
def catchFinally (st : State) (message : String) : State :=
  { st with error := some message, results := [], loading := false }

/-- Lines 41-83: `handleSubmit`, run to completion against the environment `fetch`. -/
def handleSubmit (st : State) (fetch : JSObject → FetchOutcome) : Submitted State :=
  let st := { st with error := none, loading := true, viewMode := none,
                      showGraphicalComparison := false }
  if !validateRequests st.formData.requests then
    ⟨catchFinally st "Please enter valid comma-separated numbers for page requests", none⟩
  else
    let body := requestData st.formData
    match fetch body with
    | .rejected message => ⟨catchFinally st message, some body⟩
    | .notOk (.error message) => ⟨catchFinally st message, some body⟩
    | .notOk (.ok errorData) =>
      ⟨catchFinally st (orElse errorData.error "Network response was not ok"), some body⟩
    | .ok (.error message) => ⟨catchFinally st message, some body⟩
    | .ok (.ok data) => ⟨{ st with results := data, loading := false }, some body⟩

/-- The value of `x || y` (and of `x ? x : y`) for an optional Number property
`x`: `y` when `x` is absent, zero or `NaN`. -/
def orNumber (x : Option JSNumber) (y : JSNumber) : JSNumber :=
  match x with
  | some v => if v.toBoolean then v else y
  | none => y

/-- The quotient `result.total_hits / (result.total_page_faults + result.total_hits)`. -/
def computedHitRatio (result : Result) : JSNumber :=
  (JSNumber.fin result.total_hits).div
    ((JSNumber.fin result.total_page_faults).add (JSNumber.fin result.total_hits))

/-- The quotient
`result.total_page_faults / (result.total_page_faults + result.total_hits)`. -/
def computedFaultRatio (result : Result) : JSNumber :=
  (JSNumber.fin result.total_page_faults).div
    ((JSNumber.fin result.total_page_faults).add (JSNumber.fin result.total_hits))

/-- Lines 199-201 and 266-267: the hit ratio of the chart,
`result.hit_ratio || (total_hits / (total_page_faults + total_hits))`. -/
def chartHitRatio (result : Result) : JSNumber :=
  orNumber result.hit_ratio (computedHitRatio result)

/-- Lines 202-204 and 229-230: the fault ratio of the chart,
`result.fault_ratio || (total_page_faults / (total_page_faults + total_hits))`. -/
def chartFaultRatio (result : Result) : JSNumber :=
  orNumber result.fault_ratio (computedFaultRatio result)

/-- Lines 398-399: the Number whose `toFixed(3)` the card shows as "Fault Ratio". -/
def cardFaultRatio (result : Result) : JSNumber :=
  match result.fault_ratio with
  | some v => if v.toBoolean then v else computedFaultRatio result
  | none => computedFaultRatio result

/-- Lines 405-406: the Number whose `toFixed(3)` the card shows as "Hit Ratio". -/
def cardHitRatio (result : Result) : JSNumber :=
  match result.hit_ratio with
  | some v => if v.toBoolean then v else computedHitRatio result
  | none => computedHitRatio result

/-- One bar of a chart (lines 235-246): the label under it, the ratio that gives
its height and its printed value, the two flags and the colour. -/
structure Bar where
  label : String
  value : JSNumber
  isWorst : Bool
  isBest : Bool
  backgroundColor : String
deriving DecidableEq

/-- The two bar charts of the comparison, bars in rendering order. -/
structure Chart where
  faultBars : List Bar
  hitBars : List Bar
deriving DecidableEq

/-- Lines 195-292: `renderGraphicalComparison`; `none` is the `null` it returns. -/
def renderGraphicalComparison (results : List Result) : Option Chart :=
  if results.length ≠ 6 then none
  else
    let hitRatios := results.map chartHitRatio
    let faultRatios := results.map chartFaultRatio
    let maxHitRatio := mathMax hitRatios
    let minHitRatio := mathMin hitRatios
    let maxFaultRatio := mathMax faultRatios
    let minFaultRatio := mathMin faultRatios
    some
      { faultBars := results.map (fun result =>
          let faultRatio := chartFaultRatio result
          let isWorst := faultRatio.strictEq maxFaultRatio
          let isBest := faultRatio.strictEq minFaultRatio
          { label := result.algorithm, value := faultRatio, isWorst := isWorst,
            isBest := isBest,
            backgroundColor :=
              if isWorst then "#ff6b6b" else if isBest then "#51cf66" else "#339af0" })
        hitBars := results.map (fun result =>
          let hitRatio := chartHitRatio result
          let isBest := hitRatio.strictEq maxHitRatio
          let isWorst := hitRatio.strictEq minHitRatio
          { label := result.algorithm, value := hitRatio, isWorst := isWorst,
            isBest := isBest,
            backgroundColor :=
              if isBest then "#51cf66" else if isWorst then "#ff6b6b" else "#339af0" }) }

/-- Lines 347-355: whether the "Graphical Comparison" button is rendered. -/
def comparisonButtonOffered (results : List Result) : Bool :=
  results.length = 6

end PageReplacementSimulation

/-! ## `PageReplacementSimulation` of `frontend01` (the earlier simple form)

Its `validateRequests`, `requestsArray` and `requestData` are the same text as in
`frontend/src/components/temp.jsx`; the state has no views and no chart. -/

namespace PageReplacementSimulation01

/-- The component state (lines 5-13). -/
structure State where
  formData : PageReplacementSimulation.FormData := {}
  results : List Result := []
  loading : Bool := false
  error : Option String := none

/-- Lines 32-35: `validateRequests`. -/
def validateRequests (input : String) : Bool :=
  if input.data = [] then false
  else (split ',' input.data).all (fun item => !isNaN (parseInt (trim item)))

/-- Lines 48-54: `requestsArray` and the `requestData` object literal. -/
def requestData (formData : PageReplacementSimulation.FormData) : JSObject :=
  [("requests", .arr ((split ',' formData.requests.data).map (fun num => parseInt (trim num)))),
   ("frames", .num (parseInt formData.frames.data)),
   ("algorithm", .str formData.algorithm)]

/-- Lines 71-77: the `catch` block followed by the `finally` block. -/
def catchFinally (st : State) (message : String) : State :=
  { st with error := some message, results := [], loading := false }

/-- Lines 37-78: `handleSubmit`. -/
def handleSubmit (st : State) (fetch : JSObject → FetchOutcome) : Submitted State :=
  let st := { st with error := none, loading := true }
  if !validateRequests st.formData.requests then
    ⟨catchFinally st "Please enter valid comma-separated numbers for page requests", none⟩
  else
    let body := requestData st.formData
    match fetch body with
    | .rejected message => ⟨catchFinally st message, some body⟩
    | .notOk (.error message) => ⟨catchFinally st message, some body⟩
    | .notOk (.ok errorData) =>
      ⟨catchFinally st (orElse errorData.error "Network response was not ok"), some body⟩
    | .ok (.error message) => ⟨catchFinally st message, some body⟩
    | .ok (.ok data) => ⟨{ st with results := data, loading := false }, some body⟩

/-- Lines 171-175: the Number whose `toFixed(2)` the card shows as "Fault Ratio". -/
def cardFaultRatio (result : Result) : JSNumber :=
  (JSNumber.fin result.total_page_faults).div
    ((JSNumber.fin result.total_page_faults).add (JSNumber.fin result.total_hits))

/-- Lines 177-181: the Number whose `toFixed(2)` the card shows as "Hit Ratio". -/
def cardHitRatio (result : Result) : JSNumber :=
  (JSNumber.fin result.total_hits).div
    ((JSNumber.fin result.total_page_faults).add (JSNumber.fin result.total_hits))

end PageReplacementSimulation01

/-! ## `MemorySimulation` of `frontend01` (the extended virtual-memory form) -/

namespace MemorySimulation

/-- The `formData` state (lines 5-14); the numeric defaults are written as the
strings `parseInt` converts them to. -/
structure FormData where
  total_virtual_pages : String := "100"
  total_physical_frames : String := "10"
  page_size : String := "4096"
  page_table_type : String := "single"
  tlb_size : String := "5"
  replacement_algo : String := "fifo"
  total_access_requests : String := "1000"
  memory_requests : String := ""
deriving DecidableEq

/-- The component state (lines 5-19). -/
structure State where
  formData : FormData := {}
  results : List Result := []
  loading : Bool := false
  error : Option String := none
  useCustomRequests : Bool := false

/-- Lines 48-51: `validateMemoryRequests`. -/
def validateMemoryRequests (input : String) : Bool :=
  if input.data = [] then false
  else (split ',' input.data).all (fun item => !isNaN (parseInt (trim item)))

/-- Lines 65-78: the `requestData` object literal and the property added to it. -/
def requestData (formData : FormData) (useCustomRequests : Bool) : JSObject :=
  let requestData : JSObject :=
    [("total_virtual_pages", .num (parseInt formData.total_virtual_pages.data)),
     ("total_physical_frames", .num (parseInt formData.total_physical_frames.data)),
     ("tlb_size", .num (parseInt formData.tlb_size.data)),
     ("page_table_type", .str formData.page_table_type),
     ("replacement_algo", .str formData.replacement_algo)]
  if useCustomRequests then
    requestData.set "memory_requests" (.str formData.memory_requests)
  else
    requestData.set "total_access_requests"
      (.num (parseInt formData.total_access_requests.data))

/-- Lines 95-101: the `catch` block followed by the `finally` block. -/
def catchFinally (st : State) (message : String) : State :=
  { st with error := some message, results := [], loading := false }

/-- Lines 53-102: `handleSubmit`. -/
def handleSubmit (st : State) (fetch : JSObject → FetchOutcome) : Submitted State :=
  let st := { st with error := none, loading := true }
  if st.useCustomRequests && !validateMemoryRequests st.formData.memory_requests then
    ⟨catchFinally st "Please enter valid comma-separated numbers for memory requests", none⟩
  else
    let body := requestData st.formData st.useCustomRequests
    match fetch body with
    | .rejected message => ⟨catchFinally st message, some body⟩
    | .notOk (.error message) => ⟨catchFinally st message, some body⟩
    | .notOk (.ok errorData) =>
      ⟨catchFinally st (orElse errorData.detail "Network response was not ok"), some body⟩
    | .ok (.error message) => ⟨catchFinally st message, some body⟩
    | .ok (.ok data) => ⟨{ st with results := data, loading := false }, some body⟩

end MemorySimulation

/-! ## The simulation engine

The server behind `http://localhost:8000/simulate` is not part of the source tree.
The definitions of this section follow the specification (§3, §4.1, §4.2, §4.4,
§4.5, §7) for the simple request shape: a trace, a frame count and one policy.  The
page table and the TLB of §4.3 do not change which requests hit, so the driver keeps
the frame array only. -/

namespace Engine

/-- Modelled from the spec: the six eviction policies of §4.2 (the server itself is
missing from the source tree). -/
inductive Policy
  | fifo
  | lru
  | optimal
  | lfu
  | mru
  | mfu
deriving DecidableEq

/-- Modelled from the spec: an occupied frame of §3, the resident page with its load
order, last-access time and frequency counter. -/
structure Frame where
  page : Int
  loadOrder : Nat
  lastAccess : Nat
  frequency : Nat
deriving DecidableEq

/-- Modelled from the spec: the position of the next occurrence of `page` in the
remaining trace (§4.2, Optimal); the length of the remaining trace when the page
never recurs, which is farther than any occurrence. -/
def nextUse (future : List Int) (page : Int) : Nat :=
  future.indexOf page

/-- Modelled from the spec: the victim-selection table of §4.2, as the test whether
frame `a` is to be evicted rather than frame `b`, ties broken by earliest load. -/
def evictBefore (policy : Policy) (future : List Int) (a b : Frame) : Bool :=
  match policy with
  | .fifo => a.loadOrder < b.loadOrder
  | .lru => a.lastAccess < b.lastAccess
  | .optimal =>
    nextUse future b.page < nextUse future a.page ||
      (nextUse future a.page = nextUse future b.page && a.loadOrder < b.loadOrder)
  | .lfu =>
    a.frequency < b.frequency || (a.frequency = b.frequency && a.loadOrder < b.loadOrder)
  | .mru =>
    b.lastAccess < a.lastAccess || (a.lastAccess = b.lastAccess && a.loadOrder < b.loadOrder)
  | .mfu =>
    b.frequency < a.frequency || (a.frequency = b.frequency && a.loadOrder < b.loadOrder)

/-- Modelled from the spec: the scan behind `select_victim` of §4.2, from frame
index `index` on, with the best candidate so far. -/
def selectVictimFrom (policy : Policy) (future : List Int) :
    List (Option Frame) → Nat → Option (Nat × Frame) → Option (Nat × Frame)
  | [], _, best => best
  | none :: rest, index, best => selectVictimFrom policy future rest (index + 1) best
  | some f :: rest, index, none =>
    selectVictimFrom policy future rest (index + 1) (some (index, f))
  | some f :: rest, index, some (j, g) =>
    selectVictimFrom policy future rest (index + 1)
      (if evictBefore policy future f g then some (index, f) else some (j, g))

/-- Modelled from the spec: the capability `select_victim(current_frames)` of §4.2,
the index of the frame to evict together with its occupant. -/
def selectVictim (policy : Policy) (future : List Int) (frames : List (Option Frame)) :
    Option (Nat × Frame) :=
  selectVictimFrom policy future frames 0 none

/-- Modelled from the spec: the state of a run of the SimulationDriver of §4.4, the
frame array, the two counters and the records built so far. -/
structure Run where
  frames : List (Option Frame)
  hits : Nat
  faults : Nat
  history : List HistoryEntry
  pageTable : List (List (Option Int))

/-- Modelled from the spec: the snapshot of the frame array (§3), each frame's
resident page or empty. -/
def snapshot (frames : List (Option Frame)) : List (Option Int) :=
  frames.map (fun f => f.map (fun occupant => occupant.page))

/-- Modelled from the spec: the record of one step (§4.4), appended to the history
and to the page-table evolution. -/
def record (run : Run) (frames : List (Option Frame)) (hit : Bool) (stepNo : Nat)
    (page : Int) (action : String) : Run :=
  { frames := frames
    hits := if hit then run.hits + 1 else run.hits
    faults := if hit then run.faults else run.faults + 1
    history := run.history ++
      [{ step := stepNo, page := page, event := if hit then "hit" else "fault",
         action := action, memory := snapshot frames }]
    pageTable := run.pageTable ++ [snapshot frames] }

/-- Modelled from the spec: one request of the SimulationDriver of §4.4 (part of
the missing server).  A resident
page is a hit and the policy is told of the access; otherwise the page is loaded
into the first free frame, or into the frame of the victim the policy selects. -/
def step (policy : Policy) (future : List Int) (stepNo : Nat) (page : Int) (run : Run) :
    Run :=
  match run.frames.findIdx? (fun f => f.any (fun occupant => occupant.page = page)) with
  | some i =>
    record run
      (run.frames.modify
        (fun f => f.map (fun occupant =>
          { occupant with lastAccess := stepNo, frequency := occupant.frequency + 1 })) i)
      true stepNo page ""
  | none =>
    let loaded : Option Frame :=
      some { page := page, loadOrder := stepNo, lastAccess := stepNo, frequency := 1 }
    match run.frames.findIdx? (fun f => f.isNone) with
    | some i => record run (run.frames.set i loaded) false stepNo page "loaded"
    | none =>
      match selectVictim policy future run.frames with
      | some (i, victim) =>
        record run (run.frames.set i loaded) false stepNo page
          ("evicted " ++ toString victim.page)
      | none => record run run.frames false stepNo page ""

/-- Modelled from the spec: the SimulationDriver of §4.4 over a trace, steps
numbered from `stepNo` on. -/
def runTrace (policy : Policy) : Nat → List Int → Run → Run
  | _, [], run => run
  | stepNo, page :: rest, run =>
    runTrace policy (stepNo + 1) rest (step policy rest stepNo page run)

/-- Modelled from the spec: the label of a policy in the `algorithm` field. -/
def Policy.label : Policy → String
  | .fifo => "FIFO"
  | .lru => "LRU"
  | .optimal => "Optimal"
  | .lfu => "LFU"
  | .mru => "MRU"
  | .mfu => "MFU"

/-- Modelled from the spec: the StatisticsAggregator of §4.5 and the ResultSet of
§3 for a completed run: `hit_ratio = hits/(hits+faults)`, `fault_ratio = 1 -
hit_ratio`, both `0` when there was no request. -/
def resultOf (policy : Policy) (run : Run) : Result :=
  let hitRatio : ℚ :=
    if run.hits + run.faults = 0 then 0 else (run.hits : ℚ) / ((run.hits : ℚ) + run.faults)
  { algorithm := policy.label
    total_hits := run.hits
    total_page_faults := run.faults
    hit_ratio := some (.fin hitRatio)
    fault_ratio := some (.fin (if run.hits + run.faults = 0 then 0 else 1 - hitRatio))
    final_memory_state := some (snapshot run.frames)
    page_table := some run.pageTable
    history := some run.history }

/-- Modelled from the spec: the handler of `/simulate` for the simple request shape
with one named policy, which is missing from the source tree.  The input is
validated once, before the run (§7): an empty trace and a
frame count below 1 are rejected with a message; otherwise the trace is driven
through `frameCount` empty frames. -/
def simulate (policy : Policy) (frameCount : Nat) (requests : List Int) :
    Except String Result :=
  if requests = [] then .error "empty trace"
  else if frameCount < 1 then .error "frame_count < 1"
  else
    .ok (resultOf policy
      (runTrace policy 1 requests
        { frames := List.replicate frameCount none, hits := 0, faults := 0, history := [],
          pageTable := [] }))

end Engine

namespace PageReplacementSimulation

/-- Lines 381-386: the figure the card shows as "Total Requests",
`result.total_page_faults + result.total_hits`. -/
def totalRequests (result : Result) : Nat :=
  result.total_page_faults + result.total_hits

end PageReplacementSimulation

namespace PageReplacementSimulation01

/-- Lines 165-170: the figure the card shows as "Total Requests",
`result.total_page_faults + result.total_hits`. -/
def totalRequests (result : Result) : Nat :=
  result.total_page_faults + result.total_hits

end PageReplacementSimulation01

namespace PageReplacementSimulation

/-- What a cell of the page-table view shows: a page number, the text `-`, or
nothing (React renders `undefined` as nothing). -/
inductive Cell
  | page (p : Int)
  | dash
  | blank
deriving DecidableEq

/-- The table of the page-table view (lines 121-142): the headings after "Steps",
and for every row the index in its "Frame" label and its cells. -/
structure PageTableView where
  header : List Nat
  rows : List (Nat × List Cell)
deriving DecidableEq

/-- Line 136: `frameState[frameIdx] !== null ? frameState[frameIdx] : "-"`; an index
past the end of the snapshot reads `undefined`, which is not `null`. -/
def cellOf (frameState : List (Option Int)) (frameIdx : Nat) : Cell :=
  match frameState[frameIdx]? with
  | some (some p) => .page p
  | some none => .dash
  | none => .blank

/-- Lines 115-149: `renderPageTable`; `none` is the "No page table data available"
branch.  The parameter `toLength` is the built-in conversion that
`Array.from({ length: formData.frames })` applies to the text of the frames field
to get the number of elements. -/
def renderPageTable (toLength : String → Nat) (formData : FormData) (result : Result) :
    Option PageTableView :=
  match result.page_table with
  | none => none
  | some pageTable =>
    some
      { header := pageTable.enum.map (fun entry => entry.1 + 1)
        rows := (List.range (toLength formData.frames)).map (fun frameIdx =>
          (frameIdx, pageTable.map (fun frameState => cellOf frameState frameIdx))) }

end PageReplacementSimulation

namespace PageReplacementSimulation

/-- Lines 28-34: `handleInputChange`, for the three inputs of the form (named
`requests`, `frames` and `algorithm`). -/
def handleInputChange (st : State) (name value : String) : State :=
  { st with formData :=
      if name = "requests" then { st.formData with requests := value }
      else if name = "frames" then { st.formData with frames := value }
      else if name = "algorithm" then { st.formData with algorithm := value }
      else st.formData }

/-- Lines 42-46: the four state updates `handleSubmit` makes before the `try`. -/
def submitStart (st : State) : State :=
  { st with error := none, loading := true, viewMode := none,
            showGraphicalComparison := false }

/-- Lines 69-82: what `handleSubmit` does, once the awaited response is there, to
the state current at that time. -/
def settle (st : State) (outcome : FetchOutcome) : State :=
  match outcome with
  | .rejected message => catchFinally st message
  | .notOk (.error message) => catchFinally st message
  | .notOk (.ok errorData) =>
    catchFinally st (orElse errorData.error "Network response was not ok")
  | .ok (.error message) => catchFinally st message
  | .ok (.ok data) => { st with results := data, loading := false }

/-- Line 377: the click handler of the result card at `index`. -/
def clickCard (st : State) (index : Nat) : State :=
  { st with activeResultIndex := index }

/-- Lines 410-427: a click on one of the three view buttons of the card at `index`.
The button toggles `viewMode`; the click then bubbles to the card, whose handler
sets `activeResultIndex`. -/
def clickView (st : State) (index : Nat) (mode : ViewMode) : State :=
  clickCard { st with viewMode := if st.viewMode = some mode then none else some mode } index

/-- Line 351: the click handler of the comparison button. -/
def toggleComparison (st : State) : State :=
  { st with showGraphicalComparison := !st.showGraphicalComparison }

/-- The states the component can reach.  The submit button is disabled while
`loading` (line 344); a response settles a pending submission; the cards and their
buttons exist only when not `loading` and only for indices of `results` (lines
366-373); the comparison button exists only for six results (line 347). -/
inductive Reachable : State → Prop
  | init : Reachable {}
  | inputChange (st : State) (name value : String) :
      Reachable st → Reachable (handleInputChange st name value)
  | submitInvalid (st : State) :
      Reachable st → st.loading = false →
      validateRequests st.formData.requests = false →
      Reachable (catchFinally (submitStart st)
        "Please enter valid comma-separated numbers for page requests")
  | submitValid (st : State) :
      Reachable st → st.loading = false →
      validateRequests st.formData.requests = true →
      Reachable (submitStart st)
  | settled (st : State) (outcome : FetchOutcome) :
      Reachable st → st.loading = true → Reachable (settle st outcome)
  | cardClicked (st : State) (index : Nat) :
      Reachable st → st.loading = false → index < st.results.length →
      Reachable (clickCard st index)
  | viewClicked (st : State) (index : Nat) (mode : ViewMode) :
      Reachable st → st.loading = false → index < st.results.length →
      Reachable (clickView st index mode)
  | comparisonToggled (st : State) :
      Reachable st → st.results.length = 6 → Reachable (toggleComparison st)

end PageReplacementSimulation

/-! ## `formatKey` (both components of `frontend01`)

`charAt` and `slice` index the UTF-16 code units of a string, so `formatKey` is
embedded on lists of code units: a character of a JavaScript string is one code
unit, and a character outside the BMP is two of them. -/

/-- The UTF-16 code units of a character. -/
def utf16Char (c : Char) : List Nat :=
  if c.toNat < 0x10000 then [c.toNat]
  else [0xD800 + (c.toNat - 0x10000) / 0x400, 0xDC00 + (c.toNat - 0x10000) % 0x400]

/-- The UTF-16 code units of a string. -/
def utf16 (s : String) : List Nat :=
  s.data.flatMap utf16Char

/-- The method `String.prototype.split` with a one-unit separator and no limit, on
code units. -/
def splitUnits (sep : Nat) : List Nat → List (List Nat)
  | [] => [[]]
  | u :: us =>
    if u = sep then [] :: splitUnits sep us
    else
      match splitUnits sep us with
      | [] => [[u]]
      | t :: ts => (u :: t) :: ts

/-- The method `Array.prototype.join` with a one-unit separator. -/
def join (sep : Nat) : List (List Nat) → List Nat
  | [] => []
  | [w] => w
  | w :: w' :: ws => w ++ sep :: join sep (w' :: ws)

/-- The upper-case form of an ASCII code unit: `a`-`z` go to `A`-`Z`, everything
else stays. -/
def asciiUpper (u : Nat) : Nat :=
  if 97 ≤ u ∧ u ≤ 122 then u - 32 else u

/-- What ECMAScript fixes about `String.prototype.toUpperCase` on the empty string
and on strings of one ASCII code unit.  (Outside ASCII the method follows the
Unicode case mappings, which may change the length.) -/
def AsciiUpperCase (toUpperCase : List Nat → List Nat) : Prop :=
  toUpperCase [] = [] ∧ ∀ u : Nat, u < 128 → toUpperCase [u] = [asciiUpper u]

/-- Lines 80-84 (`PageReplacementSimulation`) and lines 105-109 (`MemorySimulation`,
the same text): `formatKey`, with `_` the code unit 95 and the space the code unit
32.  The method `String.prototype.toUpperCase` is a parameter; `word.charAt(0)` is
`word.take 1` and `word.slice(1)` is `word.drop 1`. -/
def formatKey (toUpperCase : List Nat → List Nat) (key : List Nat) : List Nat :=
  join 32 ((splitUnits 95 key).map (fun word => toUpperCase (word.take 1) ++ word.drop 1))

/-- The format as the stat labels are described: every underscore becomes a space,
the first character of each underscore-separated word is upper-cased, every other
character stays.  `wordStart` tells whether the next character starts a word. -/
def describedFormat (toUpperCase : List Nat → List Nat) (wordStart : Bool) :
    List Nat → List Nat
  | [] => []
  | u :: us =>
    if u = 95 then 32 :: describedFormat toUpperCase true us
    else (if wordStart then toUpperCase [u] else [u]) ++ describedFormat toUpperCase false us

/-- The described format on ASCII text, where upper-casing a character is
`asciiUpper`. -/
def asciiFormat (wordStart : Bool) : List Nat → List Nat
  | [] => []
  | u :: us =>
    if u = 95 then 32 :: asciiFormat true us
    else (if wordStart then asciiUpper u else u) :: asciiFormat false us

namespace PageReplacementSimulation

/-- The colouring as it is described, first notion: `result` has the minimum fault
ratio of the list when no result of the list has a smaller one. -/
def hasMinFaultRatio (results : List Result) (result : Result) : Bool :=
  results.all (fun other => !(chartFaultRatio other).lt (chartFaultRatio result))

/-- The colouring as it is described, second notion: `result` has the maximum fault
ratio of the list when no result of the list has a larger one. -/
def hasMaxFaultRatio (results : List Result) (result : Result) : Bool :=
  results.all (fun other => !(chartFaultRatio result).lt (chartFaultRatio other))

/-- The colouring as it is described, on the hit side: no result has a larger hit
ratio. -/
def hasMaxHitRatio (results : List Result) (result : Result) : Bool :=
  results.all (fun other => !(chartHitRatio result).lt (chartHitRatio other))

/-- The colouring as it is described, on the hit side: no result has a smaller hit
ratio. -/
def hasMinHitRatio (results : List Result) (result : Result) : Bool :=
  results.all (fun other => !(chartHitRatio other).lt (chartHitRatio result))

/-- The colouring as it is described: green for the minimum fault ratio, red for
the maximum fault ratio, blue otherwise. -/
def describedColour (results : List Result) (result : Result) : String :=
  if hasMinFaultRatio results result then "#51cf66"
  else if hasMaxFaultRatio results result then "#ff6b6b"
  else "#339af0"

end PageReplacementSimulation

/-! ## Witness inputs -/

/-- A requests text of one token: the digit `1` followed by 309 zeros. -/
def hugeToken : String := ⟨'1' :: List.replicate 309 '0'⟩

/-- A result as a server would send it for FIFO on the default input: 3 hits and
9 faults, with both ratios supplied. -/
def fifoResult : Result :=
  { algorithm := "FIFO", total_hits := 3, total_page_faults := 9,
    hit_ratio := some (.fin (3 / (3 + 9))), fault_ratio := some (.fin (1 - 3 / (3 + 9))) }

/-- A result without hits whose `hit_ratio` is the falsy `0`. -/
def noHitResult : Result :=
  { algorithm := "MRU", total_hits := 0, total_page_faults := 12,
    hit_ratio := some (.fin (0 / (0 + 12))), fault_ratio := some (.fin (1 - 0 / (0 + 12))) }

/-- A response of six results, labelled in the order of the comparison. -/
def sixResults : List Result :=
  [fifoResult,
   { algorithm := "LRU", total_hits := 2, total_page_faults := 10 },
   { algorithm := "Optimal", total_hits := 5, total_page_faults := 7 },
   { algorithm := "LFU", total_hits := 2, total_page_faults := 10 },
   noHitResult,
   { algorithm := "MFU", total_hits := 3, total_page_faults := 9 }]

/-- The result of an empty trace: no hits, no faults, both ratios supplied as `0`. -/
def emptyTraceResult : Result :=
  { algorithm := "FIFO", total_hits := 0, total_page_faults := 0,
    hit_ratio := some (.fin 0), fault_ratio := some (.fin 0) }

/-- The conversion of `Array.from({ length: text })` on a text of decimal digits:
the number the digits denote. -/
def decimalLength (text : String) : Nat :=
  digitsToNat 10 text.data

/-- A result of two steps on three frames: page 1 is loaded, then page 2. -/
def twoStepResult : Result :=
  { algorithm := "FIFO", total_hits := 0, total_page_faults := 2,
    page_table := some [[some 1, none, none], [some 1, some 2, none]] }

/-- The state after a six-result run whose last card was opened, followed by a
one-result run whose only card is opened. -/
def afterSixThenOne : PageReplacementSimulation.State :=
  PageReplacementSimulation.clickView
    (PageReplacementSimulation.settle
      (PageReplacementSimulation.submitStart
        (PageReplacementSimulation.clickView
          (PageReplacementSimulation.settle
            (PageReplacementSimulation.submitStart {}) (.ok (.ok sixResults)))
          5 .final))
      (.ok (.ok [fifoResult])))
    0 .details

/-- A result of 3 hits and 1 fault (what every policy gives on the trace `1,1,1,1`),
with both ratios supplied, under the given label. -/
def tiedResult (label : String) : Result :=
  { algorithm := label, total_hits := 3, total_page_faults := 1,
    hit_ratio := some (.fin (3 / 4)), fault_ratio := some (.fin (1 / 4)) }

/-- A response of six results that all tie. -/
def tiedResults : List Result :=
  [tiedResult "FIFO", tiedResult "LRU", tiedResult "Optimal", tiedResult "LFU",
   tiedResult "MRU", tiedResult "MFU"]

/-- The method `String.prototype.toUpperCase` on ASCII text. -/
def asciiToUpperCase (s : List Nat) : List Nat :=
  s.map asciiUpper

/-- A result of the given counters that supplies the given ratios. -/
def suppliedResult (label : String) (hits faults : Nat) (hitRatio faultRatio : ℚ) :
    Result :=
  { algorithm := label, total_hits := hits, total_page_faults := faults,
    hit_ratio := some (.fin hitRatio), fault_ratio := some (.fin faultRatio) }

/-- A response of six results on a trace of sixteen requests; every ratio is a
multiple of `1/8`, so each is a double and each pair sums to exactly 1. -/
def suppliedResults : List Result :=
  [suppliedResult "FIFO" 4 12 (1 / 4) (3 / 4), suppliedResult "LRU" 2 14 (1 / 8) (7 / 8),
   suppliedResult "Optimal" 6 10 (3 / 8) (5 / 8), suppliedResult "LFU" 2 14 (1 / 8) (7 / 8),
   suppliedResult "MRU" 0 16 0 1, suppliedResult "MFU" 4 12 (1 / 4) (3 / 4)]

/-! ## Lemmas on the built-ins -/

theorem split_ne_nil (sep : Char) (s : List Char) : split sep s ≠ [] := by
  induction s with
  | nil => simp [split]
  | cons c cs ih =>
    unfold split
    split
    · simp
    · split <;> simp

theorem dropWhile_eq_nil_of_all (p : Char → Bool) (s : List Char)
    (h : s.all p = true) : s.dropWhile p = [] := by
  induction s with
  | nil => rfl
  | cons c cs ih =>
    simp only [List.all_cons, Bool.and_eq_true] at h
    simp [List.dropWhile, h.1, ih h.2]

theorem trim_eq_nil_of_all (s : List Char) (h : s.all isWhiteSpace = true) :
    trim s = [] := by
  simp [trim, trimStart, trimEnd, dropWhile_eq_nil_of_all isWhiteSpace s h]

theorem parseInt_nil : parseInt [] = .nan := by decide

theorem parseInt_eq (s : List Char) :
    parseInt s = .nan ∨
    ∃ n, parseInt s = signedNumber (decide ((trimStart s).head? = some '-')) n := by
  unfold parseInt
  simp only []
  split_ifs <;> first | exact Or.inl rfl | exact Or.inr ⟨_, rfl⟩

/-- The shape of every value of `parseInt`: `NaN`, an infinity, or an integer with
the sign the text asks for. -/
theorem parseInt_shape (s : List Char) :
    parseInt s = .nan ∨
    (∃ v : Nat, parseInt s = .fin (v : ℚ)) ∨
    parseInt s = .posInf ∨
    ((trimStart s).head? = some '-' ∧
      (parseInt s = .negInf ∨ ∃ v : Nat, parseInt s = .fin (-(v : ℚ)))) := by
  rcases parseInt_eq s with h | ⟨n, h⟩
  · exact Or.inl h
  · rw [h]
    unfold signedNumber
    by_cases hneg : (trimStart s).head? = some '-'
    · right; right; right
      refine ⟨hneg, ?_⟩
      cases toDouble n with
      | none => simp [hneg]
      | some v => exact Or.inr ⟨v, by simp [hneg]⟩
    · cases toDouble n with
      | none => simp [hneg]
      | some v => exact Or.inr (Or.inl ⟨v, by simp [hneg]⟩)

theorem isInteger_natCast (v : Nat) : (JSNumber.fin (v : ℚ)).isInteger = true := by
  simp [JSNumber.isInteger]

theorem isInteger_neg_natCast (v : Nat) : (JSNumber.fin (-(v : ℚ))).isInteger = true := by
  simp [JSNumber.isInteger]

theorem dropWhile_head_false (p : Char → Bool) (l : List Char) (c : Char) (cs : List Char)
    (h : l.dropWhile p = c :: cs) : p c = false := by
  induction l with
  | nil => simp at h
  | cons a as ih =>
    by_cases ha : p a = true
    · simp only [List.dropWhile, ha] at h
      exact ih h
    · simp only [List.dropWhile, ha] at h
      simp only [List.cons.injEq] at h
      rw [← h.1]
      simpa using ha

theorem dropWhile_append_singleton (p : Char → Bool) (l : List Char) (c : Char)
    (hc : p c = false) : (l ++ [c]).dropWhile p = l.dropWhile p ++ [c] := by
  induction l with
  | nil => simp [List.dropWhile, hc]
  | cons a as ih =>
    by_cases ha : p a = true
    · simp [List.dropWhile, ha, ih]
    · simp [List.dropWhile, ha]

/-- A trimmed text is empty or starts with a character that is not white space. -/
theorem trim_head (s : List Char) :
    trim s = [] ∨ ∃ c r, trim s = c :: r ∧ isWhiteSpace c = false := by
  unfold trim trimStart
  cases h : s.dropWhile isWhiteSpace with
  | nil => left; simp [trimEnd]
  | cons c cs =>
    right
    have hc := dropWhile_head_false isWhiteSpace s c cs h
    refine ⟨c, (cs.reverse.dropWhile isWhiteSpace).reverse, ?_, hc⟩
    simp [trimEnd, dropWhile_append_singleton _ _ _ hc]

theorem trimStart_trim (s : List Char) : trimStart (trim s) = trim s := by
  rcases trim_head s with h | ⟨c, r, h, hc⟩
  · rw [h]; rfl
  · rw [h]; simp [trimStart, List.dropWhile, hc]

namespace PageReplacementSimulation

theorem posted_eq (st : State) (fetch : JSObject → FetchOutcome) :
    (handleSubmit st fetch).posted =
      if validateRequests st.formData.requests = true then some (requestData st.formData)
      else none := by
  unfold handleSubmit
  by_cases hv : validateRequests st.formData.requests = true
  · simp only [hv, Bool.not_true, Bool.false_eq_true, if_false, if_true]
    split <;> rfl
  · simp [hv]

end PageReplacementSimulation

namespace PageReplacementSimulation01

theorem posted_eq01 (st : State) (fetch : JSObject → FetchOutcome) :
    (handleSubmit st fetch).posted =
      if validateRequests st.formData.requests = true then some (requestData st.formData)
      else none := by
  unfold handleSubmit
  by_cases hv : validateRequests st.formData.requests = true
  · simp only [hv, Bool.not_true, Bool.false_eq_true, if_false, if_true]
    split <;> rfl
  · simp [hv]

end PageReplacementSimulation01

/-- Every token of a text that passes the validation parses to a Number other than
`NaN`: an integer or an infinity. -/
theorem parsed_token_ok (toks : List (List Char)) (tok : List Char) (htok : tok ∈ toks)
    (hall : toks.all (fun item => !isNaN (parseInt (trim item))) = true) :
    isNaN (parseInt (trim tok)) = false ∧
      ((parseInt (trim tok)).isInteger = true ∨ parseInt (trim tok) = .posInf ∨
        parseInt (trim tok) = .negInf) := by
  have hn : isNaN (parseInt (trim tok)) = false := by
    have := List.all_eq_true.mp hall tok htok
    simpa using this
  refine ⟨hn, ?_⟩
  rcases parseInt_shape (trim tok) with h | ⟨v, h⟩ | h | ⟨_, h | ⟨v, h⟩⟩
  · rw [h] at hn; simp [isNaN] at hn
  · rw [h]; exact Or.inl (isInteger_natCast v)
  · exact Or.inr (Or.inl h)
  · exact Or.inr (Or.inr h)
  · rw [h]; exact Or.inl (isInteger_neg_natCast v)

/-- An integer token that parses to a finite Number is written into the JSON text as
that integer; a token that parses to an infinity is written as `null`. -/
theorem json_of_parsed (tok : List Char) (hn : isNaN (parseInt (trim tok)) = false) :
    (∃ z : ℤ, parseInt (trim tok) = .fin (z : ℚ) ∧
        jsonNumber (parseInt (trim tok)) = some (z : ℚ) ∧
        ((trim tok).head? ≠ some '-' → 0 ≤ z)) ∨
    ((parseInt (trim tok) = .posInf ∨ parseInt (trim tok) = .negInf) ∧
      jsonNumber (parseInt (trim tok)) = none) := by
  rcases parseInt_shape (trim tok) with h | ⟨v, h⟩ | h | ⟨hneg, h | ⟨v, h⟩⟩
  · rw [h] at hn; simp [isNaN] at hn
  · left
    refine ⟨(v : ℤ), by rw [h]; simp, by rw [h]; simp [jsonNumber], fun _ => ?_⟩
    exact Int.natCast_nonneg v
  · right; rw [h]; exact ⟨Or.inl rfl, rfl⟩
  · right; rw [h]; exact ⟨Or.inr rfl, rfl⟩
  · left
    refine ⟨-(v : ℤ), by rw [h]; simp, by rw [h]; simp [jsonNumber], fun hsign => ?_⟩
    rw [trimStart_trim] at hneg
    exact absurd hneg hsign

/-- The tokens of a text that passes the validation do not parse to `NaN`. -/
theorem tokens_not_nan (input : String)
    (hv : (if input.data = [] then false
      else (split ',' input.data).all (fun item => !isNaN (parseInt (trim item)))) = true) :
    ∀ tok ∈ split ',' input.data, isNaN (parseInt (trim tok)) = false := by
  intro tok htok
  by_cases he : input.data = []
  · simp [he] at hv
  · simp only [he, if_false] at hv
    exact (parsed_token_ok _ tok htok hv).1

/-! ## The claims -/

set_option maxRecDepth 100000 in
set_option exponentiation.threshold 2000 in
/-- C1, counterexample: the one-token text of `1` followed by 309 zeros passes
`validateRequests` and parses to `Infinity`, so the body posted for it has the
`requests` list `[null]`: its element is not an integer and not the value of
`parseInt`. -/
theorem C1_counterexample :
    PageReplacementSimulation.validateRequests hugeToken = true ∧
    parseInt (trim hugeToken.data) = .posInf ∧
    (PageReplacementSimulation.handleSubmit { formData := { requests := hugeToken } }
        (fun _ => .rejected "offline")).body =
      some [("requests", .arr [none]), ("frames", .num 3), ("algorithm", .str "fifo")] := by
  decide

/-- C1, as amended: for every form state whose requests text passes
`validateRequests`, the body `handleSubmit` posts for the simple form (in
`frontend` and in `frontend01`) is the JSON text of exactly `requests`, `frames`,
`algorithm`.  `requests` has one element for each comma-separated token, in the
original order (as many elements as tokens); no token parses to `NaN`; the element is
the integer `parseInt` reads from the trimmed token, or `null` when `parseInt` gives
an infinity.  `frames` is `parseInt` of the frames field, written as `null` when that
is not finite, and `algorithm` is the selected value. -/
theorem C1_posted_body (st : PageReplacementSimulation.State)
    (st01 : PageReplacementSimulation01.State) (fetch : JSObject → FetchOutcome)
    (hv : PageReplacementSimulation.validateRequests st.formData.requests = true)
    (hv01 : PageReplacementSimulation01.validateRequests st01.formData.requests = true) :
    ((PageReplacementSimulation.handleSubmit st fetch).body =
        some [("requests",
                .arr ((split ',' st.formData.requests.data).map
                  (fun tok => jsonNumber (parseInt (trim tok))))),
              ("frames", jsonValue (.num (parseInt st.formData.frames.data))),
              ("algorithm", .str st.formData.algorithm)] ∧
      ((split ',' st.formData.requests.data).map
          (fun tok => jsonNumber (parseInt (trim tok)))).length =
        (split ',' st.formData.requests.data).length ∧
      ∀ tok ∈ split ',' st.formData.requests.data,
        isNaN (parseInt (trim tok)) = false ∧
        ((∃ z : ℤ, parseInt (trim tok) = .fin (z : ℚ) ∧
            jsonNumber (parseInt (trim tok)) = some (z : ℚ)) ∨
          ((parseInt (trim tok) = .posInf ∨ parseInt (trim tok) = .negInf) ∧
            jsonNumber (parseInt (trim tok)) = none))) ∧
    ((PageReplacementSimulation01.handleSubmit st01 fetch).body =
        some [("requests",
                .arr ((split ',' st01.formData.requests.data).map
                  (fun tok => jsonNumber (parseInt (trim tok))))),
              ("frames", jsonValue (.num (parseInt st01.formData.frames.data))),
              ("algorithm", .str st01.formData.algorithm)] ∧
      ((split ',' st01.formData.requests.data).map
          (fun tok => jsonNumber (parseInt (trim tok)))).length =
        (split ',' st01.formData.requests.data).length ∧
      ∀ tok ∈ split ',' st01.formData.requests.data,
        isNaN (parseInt (trim tok)) = false ∧
        ((∃ z : ℤ, parseInt (trim tok) = .fin (z : ℚ) ∧
            jsonNumber (parseInt (trim tok)) = some (z : ℚ)) ∨
          ((parseInt (trim tok) = .posInf ∨ parseInt (trim tok) = .negInf) ∧
            jsonNumber (parseInt (trim tok)) = none))) := by
  have key : ∀ input : String,
      (if input.data = [] then false
        else (split ',' input.data).all (fun item => !isNaN (parseInt (trim item)))) = true →
      ∀ tok ∈ split ',' input.data,
        isNaN (parseInt (trim tok)) = false ∧
        ((∃ z : ℤ, parseInt (trim tok) = .fin (z : ℚ) ∧
            jsonNumber (parseInt (trim tok)) = some (z : ℚ)) ∨
          ((parseInt (trim tok) = .posInf ∨ parseInt (trim tok) = .negInf) ∧
            jsonNumber (parseInt (trim tok)) = none)) := by
    intro input h tok htok
    have hn := tokens_not_nan input h tok htok
    refine ⟨hn, ?_⟩
    rcases json_of_parsed tok hn with ⟨z, h1, h2, _⟩ | h
    · exact Or.inl ⟨z, h1, h2⟩
    · exact Or.inr h
  refine ⟨⟨?_, List.length_map _ _, key _ hv⟩, ⟨?_, List.length_map _ _, key _ hv01⟩⟩
  · simp only [Submitted.body]
    rw [PageReplacementSimulation.posted_eq, if_pos hv]
    simp [jsonStringify, PageReplacementSimulation.requestData,
      PageReplacementSimulation.requestsArray, jsonValue]
  · simp only [Submitted.body]
    rw [PageReplacementSimulation01.posted_eq01, if_pos hv01]
    simp [jsonStringify, PageReplacementSimulation01.requestData, jsonValue]

/-- C1, witness: the default form state of both simple forms. -/
theorem C1_posted_body_witness :
    PageReplacementSimulation.validateRequests
        ({} : PageReplacementSimulation.State).formData.requests = true ∧
    (PageReplacementSimulation.handleSubmit {} (fun _ => .rejected "offline")).body =
      some [("requests",
              .arr ((split ',' "1,2,3,4,1,2,5,1,2,3,4,5".data).map
                (fun tok => jsonNumber (parseInt (trim tok))))),
            ("frames", jsonValue (.num (parseInt "3".data))),
            ("algorithm", .str "fifo")] :=
  ⟨by decide,
   (C1_posted_body {} {} (fun _ => .rejected "offline") (by decide) (by decide)).1.1⟩

/-- C2, the code at the failing inputs: `3abc`, `1.5` and `0x1A` are not integer
literals, yet `validateRequests` and `validateMemoryRequests` return true for each,
and `handleSubmit` posts `3abc` as the page request `3` instead of reporting the
validation error. -/
theorem C2_accepts_non_literals :
    PageReplacementSimulation.validateRequests "3abc" = true ∧
    PageReplacementSimulation.validateRequests "1.5" = true ∧
    PageReplacementSimulation.validateRequests "0x1A" = true ∧
    MemorySimulation.validateMemoryRequests "3abc" = true ∧
    MemorySimulation.validateMemoryRequests "1.5" = true ∧
    MemorySimulation.validateMemoryRequests "0x1A" = true ∧
    (PageReplacementSimulation.handleSubmit { formData := { requests := "3abc" } }
        (fun _ => .rejected "offline")).posted =
      some [("requests", .arr [.fin 3]), ("frames", .num (.fin 3)),
            ("algorithm", .str "fifo")] := by
  decide

/-- C3: an empty trace is rejected.  `validateRequests` returns false for the empty
string and for every text with a comma-separated token that is empty or consists of
white space only, and every body the simple form posts has a non-empty `requests`
list. -/
theorem C3_empty_trace_rejected :
    PageReplacementSimulation.validateRequests "" = false ∧
    (∀ (input : String) (tok : List Char), tok ∈ split ',' input.data →
      tok.all isWhiteSpace = true →
      PageReplacementSimulation.validateRequests input = false) ∧
    (∀ (st : PageReplacementSimulation.State) (fetch : JSObject → FetchOutcome)
      (body : JSObject),
      (PageReplacementSimulation.handleSubmit st fetch).posted = some body →
      ∃ xs, body.get? "requests" = some (.arr xs) ∧ xs ≠ []) := by
  refine ⟨by decide, ?_, ?_⟩
  · intro input tok htok hws
    unfold PageReplacementSimulation.validateRequests
    by_cases he : input.data = []
    · simp [he]
    · simp only [he, if_false]
      rw [Bool.eq_false_iff]
      intro hall
      have := List.all_eq_true.mp hall tok htok
      rw [trim_eq_nil_of_all tok hws, parseInt_nil] at this
      simp [isNaN] at this
  · intro st fetch body hposted
    rw [PageReplacementSimulation.posted_eq] at hposted
    by_cases hv : PageReplacementSimulation.validateRequests st.formData.requests = true
    · rw [if_pos hv] at hposted
      injection hposted with hbody
      subst hbody
      refine ⟨PageReplacementSimulation.requestsArray st.formData, rfl, ?_⟩
      unfold PageReplacementSimulation.requestsArray
      intro hnil
      exact split_ne_nil ',' _ (List.map_eq_nil_iff.mp hnil)
    · rw [if_neg hv] at hposted
      cases hposted

/-- C3, witness: the text `1,,2` has an empty token and is rejected; the text `1,2,`
as well; the body posted for the default form has twelve requests. -/
theorem C3_empty_trace_rejected_witness :
    PageReplacementSimulation.validateRequests "1,,2" = false ∧
    PageReplacementSimulation.validateRequests "1,2," = false ∧
    PageReplacementSimulation.validateRequests "1, ,2" = false ∧
    ∃ xs, (PageReplacementSimulation.requestData {}).get? "requests" = some (.arr xs) ∧
      xs ≠ [] :=
  ⟨C3_empty_trace_rejected.2.1 "1,,2" [] (by decide) (by decide),
   C3_empty_trace_rejected.2.1 "1,2," [] (by decide) (by decide),
   C3_empty_trace_rejected.2.1 "1, ,2" [' '] (by decide) (by decide),
   C3_empty_trace_rejected.2.2 {} (fun _ => .rejected "offline")
     (PageReplacementSimulation.requestData {}) (by decide)⟩

/-- C4, counterexample: the text `-5` passes `validateRequests` and is posted as the
page request `-5`, which is less than zero. -/
theorem C4_counterexample :
    PageReplacementSimulation.validateRequests "-5" = true ∧
    (PageReplacementSimulation.handleSubmit { formData := { requests := "-5" } }
        (fun _ => .rejected "offline")).body =
      some [("requests", .arr [some (-5)]), ("frames", .num 3), ("algorithm", .str "fifo")] ∧
    (JSNumber.fin (-5)).lt (.fin 0) = true := by
  decide

/-- C4, as amended: for every requests text that passes `validateRequests`, every
element of the `requests` list in the body the simple form posts is an integer, or
`null` for a token that `parseInt` reads as an infinity; the integer is not below
zero whenever its trimmed token does not begin with a minus sign. -/
theorem C4_posted_requests (st : PageReplacementSimulation.State)
    (fetch : JSObject → FetchOutcome)
    (hv : PageReplacementSimulation.validateRequests st.formData.requests = true) :
    ∃ body, (PageReplacementSimulation.handleSubmit st fetch).body = some body ∧
      body.get? "requests" =
        some (.arr ((split ',' st.formData.requests.data).map
          (fun tok => jsonNumber (parseInt (trim tok))))) ∧
      ∀ tok ∈ split ',' st.formData.requests.data,
        (∃ z : ℤ, jsonNumber (parseInt (trim tok)) = some (z : ℚ) ∧
            ((trim tok).head? ≠ some '-' → 0 ≤ z)) ∨
        (jsonNumber (parseInt (trim tok)) = none ∧
          (parseInt (trim tok) = .posInf ∨ parseInt (trim tok) = .negInf)) := by
  refine ⟨jsonStringify (PageReplacementSimulation.requestData st.formData), ?_, ?_, ?_⟩
  · simp only [Submitted.body]
    rw [PageReplacementSimulation.posted_eq, if_pos hv]
    rfl
  · simp [jsonStringify, PageReplacementSimulation.requestData,
      PageReplacementSimulation.requestsArray, jsonValue, JsonObject.get?, List.find?]
  · intro tok htok
    have hn := tokens_not_nan st.formData.requests hv tok htok
    rcases json_of_parsed tok hn with ⟨z, _, h2, h3⟩ | ⟨h1, h2⟩
    · exact Or.inl ⟨z, h2, h3⟩
    · exact Or.inr ⟨h2, h1⟩

/-- C4, witness: the default form state; its tokens are `1`, `2`, and so on. -/
theorem C4_posted_requests_witness :
    PageReplacementSimulation.validateRequests
        ({} : PageReplacementSimulation.State).formData.requests = true ∧
    ∃ body, (PageReplacementSimulation.handleSubmit {}
        (fun _ => .rejected "offline")).body = some body ∧
      body.get? "requests" =
        some (.arr ((split ',' "1,2,3,4,1,2,5,1,2,3,4,5".data).map
          (fun tok => jsonNumber (parseInt (trim tok))))) :=
  ⟨by decide,
   (C4_posted_requests {} (fun _ => .rejected "offline") (by decide)).imp
     (fun _ h => ⟨h.1, h.2.1⟩)⟩

/-- C5, the code at the failing input: the body posted for the default extended
form is the five properties below and `total_access_requests`; for no form state
does the body have a `page_size` property, while the other five fields are always
there, the numeric ones as `parseInt` of the form field. -/
theorem C5_page_size_missing :
    (MemorySimulation.handleSubmit {} (fun _ => .rejected "offline")).posted =
      some [("total_virtual_pages", .num (.fin 100)),
            ("total_physical_frames", .num (.fin 10)),
            ("tlb_size", .num (.fin 5)),
            ("page_table_type", .str "single"),
            ("replacement_algo", .str "fifo"),
            ("total_access_requests", .num (.fin 1000))] ∧
    ∀ (formData : MemorySimulation.FormData) (useCustomRequests : Bool),
      (MemorySimulation.requestData formData useCustomRequests).has "page_size" = false ∧
      (MemorySimulation.requestData formData useCustomRequests).get? "total_virtual_pages" =
        some (.num (parseInt formData.total_virtual_pages.data)) ∧
      (MemorySimulation.requestData formData useCustomRequests).get? "total_physical_frames" =
        some (.num (parseInt formData.total_physical_frames.data)) ∧
      (MemorySimulation.requestData formData useCustomRequests).get? "tlb_size" =
        some (.num (parseInt formData.tlb_size.data)) ∧
      (MemorySimulation.requestData formData useCustomRequests).get? "page_table_type" =
        some (.str formData.page_table_type) ∧
      (MemorySimulation.requestData formData useCustomRequests).get? "replacement_algo" =
        some (.str formData.replacement_algo) := by
  refine ⟨by decide, ?_⟩
  intro formData useCustomRequests
  cases useCustomRequests <;>
    simp [MemorySimulation.requestData, JSObject.set, JSObject.has, JSObject.get?, List.find?]

namespace MemorySimulation

theorem posted_eq_memory (st : State) (fetch : JSObject → FetchOutcome) :
    (handleSubmit st fetch).posted =
      if (st.useCustomRequests && !validateMemoryRequests st.formData.memory_requests) = true
      then none else some (requestData st.formData st.useCustomRequests) := by
  unfold handleSubmit
  by_cases hv :
      (st.useCustomRequests && !validateMemoryRequests st.formData.memory_requests) = true
  · simp only [hv, if_true]
  · simp only [hv, if_false]
    cases hf : fetch (requestData st.formData st.useCustomRequests) with
    | rejected m => simp
    | notOk e => cases e <;> simp
    | ok d => cases d <;> simp

end MemorySimulation

/-- C6: for every form state, the body the extended form posts contains exactly one
of `memory_requests` and `total_access_requests`: `memory_requests`, holding the
text the caller supplied, when and only when custom requests are enabled, otherwise
`total_access_requests`, holding `parseInt` of its field. -/
theorem C6_exactly_one_trace_field (st : MemorySimulation.State)
    (fetch : JSObject → FetchOutcome) (body : JSObject)
    (hposted : (MemorySimulation.handleSubmit st fetch).posted = some body) :
    body.has "memory_requests" = st.useCustomRequests ∧
    body.has "total_access_requests" = !st.useCustomRequests ∧
    (st.useCustomRequests = true →
      body.get? "memory_requests" = some (.str st.formData.memory_requests)) ∧
    (st.useCustomRequests = false →
      body.get? "total_access_requests" =
        some (.num (parseInt st.formData.total_access_requests.data))) := by
  rw [MemorySimulation.posted_eq_memory] at hposted
  split at hposted
  · cases hposted
  · injection hposted with hbody
    subst hbody
    cases st.useCustomRequests <;>
      simp [MemorySimulation.requestData, JSObject.set, JSObject.has, JSObject.get?,
        List.find?]

/-- C6, witness: the default form (count of requests) and a form with custom
requests `1,2,3`. -/
theorem C6_exactly_one_trace_field_witness :
    (JSObject.has (MemorySimulation.requestData {} false) "memory_requests" = false ∧
      JSObject.has (MemorySimulation.requestData {} false) "total_access_requests" = true) ∧
    (JSObject.has
        (MemorySimulation.requestData { memory_requests := "1,2,3" } true)
        "memory_requests" = true ∧
      JSObject.has
        (MemorySimulation.requestData { memory_requests := "1,2,3" } true)
        "total_access_requests" = false) :=
  ⟨let h := C6_exactly_one_trace_field {} (fun _ => .rejected "offline")
      (MemorySimulation.requestData {} false) (by decide)
   ⟨h.1, h.2.1⟩,
   let h := C6_exactly_one_trace_field
      { formData := { memory_requests := "1,2,3" }, useCustomRequests := true }
      (fun _ => .rejected "offline")
      (MemorySimulation.requestData { memory_requests := "1,2,3" } true) (by decide)
   ⟨h.1, h.2.1⟩⟩

/-- C7, counterexample: a non-2xx response whose body carries its message under
`detail` leaves the simple form with the generic text, and one whose body carries
it under `error` leaves the extended form with the generic text. -/
theorem C7_counterexample :
    (PageReplacementSimulation.handleSubmit {}
        (fun _ => .notOk (.ok { detail := some "frames must be at least 1" }))).state.error =
      some "Network response was not ok" ∧
    (MemorySimulation.handleSubmit {}
        (fun _ => .notOk (.ok { error := some "frames must be at least 1" }))).state.error =
      some "Network response was not ok" := by
  decide

/-- C7, as amended: for every non-2xx response whose JSON body carries a non-empty
message under `error`, `handleSubmit` of the simple form (in `frontend` and in
`frontend01`) sets the displayed error to that message; for every non-2xx response
whose JSON body carries a non-empty message under `detail`, `handleSubmit` of the
extended form does.  The simple form shows the generic text when `error` is absent
and the extended form when `detail` is absent, whatever the other key holds. -/
theorem C7_error_message (fetch : JSObject → FetchOutcome) (errorData : ErrorData) :
    (∀ st : PageReplacementSimulation.State,
      PageReplacementSimulation.validateRequests st.formData.requests = true →
      fetch (PageReplacementSimulation.requestData st.formData) = .notOk (.ok errorData) →
      (∀ message : String, errorData.error = some message → message.data ≠ [] →
        (PageReplacementSimulation.handleSubmit st fetch).state.error = some message) ∧
      (errorData.error = none →
        (PageReplacementSimulation.handleSubmit st fetch).state.error =
          some "Network response was not ok")) ∧
    (∀ st : PageReplacementSimulation01.State,
      PageReplacementSimulation01.validateRequests st.formData.requests = true →
      fetch (PageReplacementSimulation01.requestData st.formData) = .notOk (.ok errorData) →
      (∀ message : String, errorData.error = some message → message.data ≠ [] →
        (PageReplacementSimulation01.handleSubmit st fetch).state.error = some message) ∧
      (errorData.error = none →
        (PageReplacementSimulation01.handleSubmit st fetch).state.error =
          some "Network response was not ok")) ∧
    (∀ st : MemorySimulation.State,
      (st.useCustomRequests &&
        !MemorySimulation.validateMemoryRequests st.formData.memory_requests) = false →
      fetch (MemorySimulation.requestData st.formData st.useCustomRequests) =
        .notOk (.ok errorData) →
      (∀ message : String, errorData.detail = some message → message.data ≠ [] →
        (MemorySimulation.handleSubmit st fetch).state.error = some message) ∧
      (errorData.detail = none →
        (MemorySimulation.handleSubmit st fetch).state.error =
          some "Network response was not ok")) := by
  refine ⟨?_, ?_, ?_⟩
  · intro st hv hf
    constructor
    · intro message he hne
      simp [PageReplacementSimulation.handleSubmit, hv, hf,
        PageReplacementSimulation.catchFinally, orElse, he, hne]
    · intro he
      simp [PageReplacementSimulation.handleSubmit, hv, hf,
        PageReplacementSimulation.catchFinally, orElse, he]
  · intro st hv hf
    constructor
    · intro message he hne
      simp [PageReplacementSimulation01.handleSubmit, hv, hf,
        PageReplacementSimulation01.catchFinally, orElse, he, hne]
    · intro he
      simp [PageReplacementSimulation01.handleSubmit, hv, hf,
        PageReplacementSimulation01.catchFinally, orElse, he]
  · intro st hv hf
    constructor
    · intro message he hne
      simp [MemorySimulation.handleSubmit, hv, hf, MemorySimulation.catchFinally, orElse,
        he, hne]
    · intro he
      simp [MemorySimulation.handleSubmit, hv, hf, MemorySimulation.catchFinally, orElse, he]

/-- C7, witness: the default forms against a server that answers 400 with one
message under both keys. -/
theorem C7_error_message_witness :
    (PageReplacementSimulation.handleSubmit {}
        (fun _ => .notOk (.ok { error := some "bad frames", detail := some "bad frames" }))
      ).state.error = some "bad frames" ∧
    (PageReplacementSimulation01.handleSubmit {}
        (fun _ => .notOk (.ok { error := some "bad frames", detail := some "bad frames" }))
      ).state.error = some "bad frames" ∧
    (MemorySimulation.handleSubmit {}
        (fun _ => .notOk (.ok { error := some "bad frames", detail := some "bad frames" }))
      ).state.error = some "bad frames" :=
  ⟨((C7_error_message
        (fun _ => .notOk (.ok { error := some "bad frames", detail := some "bad frames" }))
        { error := some "bad frames", detail := some "bad frames" }).1
      {} (by decide) rfl).1 "bad frames" rfl (by decide),
   ((C7_error_message
        (fun _ => .notOk (.ok { error := some "bad frames", detail := some "bad frames" }))
        { error := some "bad frames", detail := some "bad frames" }).2.1
      {} (by decide) rfl).1 "bad frames" rfl (by decide),
   ((C7_error_message
        (fun _ => .notOk (.ok { error := some "bad frames", detail := some "bad frames" }))
        { error := some "bad frames", detail := some "bad frames" }).2.2
      {} (by decide) rfl).1 "bad frames" rfl (by decide)⟩

/-- C8: whenever a submission fails (the validation fails, the request is rejected,
the response is not 2xx, or reading the body throws), the state `handleSubmit`
leaves behind has `results` empty, `error` set to a message and `loading` false,
whatever results an earlier run had left; this holds for the two simple forms and
for the extended form. -/
theorem C8_failed_submission (st : PageReplacementSimulation.State)
    (st01 : PageReplacementSimulation01.State) (stm : MemorySimulation.State)
    (fetch fetch01 fetchm : JSObject → FetchOutcome)
    (hfail : PageReplacementSimulation.validateRequests st.formData.requests = false ∨
      (fetch (PageReplacementSimulation.requestData st.formData)).data? = none)
    (hfail01 : PageReplacementSimulation01.validateRequests st01.formData.requests = false ∨
      (fetch01 (PageReplacementSimulation01.requestData st01.formData)).data? = none)
    (hfailm : (stm.useCustomRequests &&
        !MemorySimulation.validateMemoryRequests stm.formData.memory_requests) = true ∨
      (fetchm (MemorySimulation.requestData stm.formData stm.useCustomRequests)).data? =
        none) :
    ((PageReplacementSimulation.handleSubmit st fetch).state.results = [] ∧
      (∃ message, (PageReplacementSimulation.handleSubmit st fetch).state.error =
        some message) ∧
      (PageReplacementSimulation.handleSubmit st fetch).state.loading = false) ∧
    ((PageReplacementSimulation01.handleSubmit st01 fetch01).state.results = [] ∧
      (∃ message, (PageReplacementSimulation01.handleSubmit st01 fetch01).state.error =
        some message) ∧
      (PageReplacementSimulation01.handleSubmit st01 fetch01).state.loading = false) ∧
    ((MemorySimulation.handleSubmit stm fetchm).state.results = [] ∧
      (∃ message, (MemorySimulation.handleSubmit stm fetchm).state.error = some message) ∧
      (MemorySimulation.handleSubmit stm fetchm).state.loading = false) := by
  refine ⟨?_, ?_, ?_⟩
  · unfold PageReplacementSimulation.handleSubmit
    by_cases hv : PageReplacementSimulation.validateRequests st.formData.requests = true
    · have hd := hfail.resolve_left (by simp [hv])
      simp only [hv, Bool.not_true, Bool.false_eq_true, if_false]
      cases hf : fetch (PageReplacementSimulation.requestData st.formData) with
      | rejected m => simp [PageReplacementSimulation.catchFinally]
      | notOk e => cases e <;> simp [PageReplacementSimulation.catchFinally]
      | ok d =>
        cases d with
        | error m => simp [PageReplacementSimulation.catchFinally]
        | ok data => rw [hf] at hd; simp [FetchOutcome.data?] at hd
    · simp [hv, PageReplacementSimulation.catchFinally]
  · unfold PageReplacementSimulation01.handleSubmit
    by_cases hv : PageReplacementSimulation01.validateRequests st01.formData.requests = true
    · have hd := hfail01.resolve_left (by simp [hv])
      simp only [hv, Bool.not_true, Bool.false_eq_true, if_false]
      cases hf : fetch01 (PageReplacementSimulation01.requestData st01.formData) with
      | rejected m => simp [PageReplacementSimulation01.catchFinally]
      | notOk e => cases e <;> simp [PageReplacementSimulation01.catchFinally]
      | ok d =>
        cases d with
        | error m => simp [PageReplacementSimulation01.catchFinally]
        | ok data => rw [hf] at hd; simp [FetchOutcome.data?] at hd
    · simp [hv, PageReplacementSimulation01.catchFinally]
  · unfold MemorySimulation.handleSubmit
    by_cases hv : (stm.useCustomRequests &&
        !MemorySimulation.validateMemoryRequests stm.formData.memory_requests) = true
    · simp [hv, MemorySimulation.catchFinally]
    · have hd := hfailm.resolve_left hv
      simp only [hv, if_false]
      cases hf : fetchm (MemorySimulation.requestData stm.formData stm.useCustomRequests) with
      | rejected m => simp [MemorySimulation.catchFinally]
      | notOk e => cases e <;> simp [MemorySimulation.catchFinally]
      | ok d =>
        cases d with
        | error m => simp [MemorySimulation.catchFinally]
        | ok data => rw [hf] at hd; simp [FetchOutcome.data?] at hd

/-- C8, witness: each form holds the result of an earlier run; the first fails the
validation, the second has its request rejected, the third gets a 422. -/
theorem C8_failed_submission_witness :
    ((PageReplacementSimulation.handleSubmit
          { formData := { requests := "one,two" }, results := [fifoResult] }
          (fun _ => .ok (.ok sixResults))).state.results = [] ∧
      (∃ message, (PageReplacementSimulation.handleSubmit
          { formData := { requests := "one,two" }, results := [fifoResult] }
          (fun _ => .ok (.ok sixResults))).state.error = some message) ∧
      (PageReplacementSimulation.handleSubmit
          { formData := { requests := "one,two" }, results := [fifoResult] }
          (fun _ => .ok (.ok sixResults))).state.loading = false) ∧
    ((PageReplacementSimulation01.handleSubmit { results := [fifoResult] }
          (fun _ => .rejected "Failed to fetch")).state.results = [] ∧
      (∃ message, (PageReplacementSimulation01.handleSubmit { results := [fifoResult] }
          (fun _ => .rejected "Failed to fetch")).state.error = some message) ∧
      (PageReplacementSimulation01.handleSubmit { results := [fifoResult] }
          (fun _ => .rejected "Failed to fetch")).state.loading = false) ∧
    ((MemorySimulation.handleSubmit { results := [fifoResult] }
          (fun _ => .notOk (.ok { detail := some "invalid" }))).state.results = [] ∧
      (∃ message, (MemorySimulation.handleSubmit { results := [fifoResult] }
          (fun _ => .notOk (.ok { detail := some "invalid" }))).state.error =
        some message) ∧
      (MemorySimulation.handleSubmit { results := [fifoResult] }
          (fun _ => .notOk (.ok { detail := some "invalid" }))).state.loading = false) :=
  C8_failed_submission
    { formData := { requests := "one,two" }, results := [fifoResult] }
    { results := [fifoResult] } { results := [fifoResult] }
    (fun _ => .ok (.ok sixResults)) (fun _ => .rejected "Failed to fetch")
    (fun _ => .notOk (.ok { detail := some "invalid" }))
    (Or.inl (by decide)) (Or.inr rfl) (Or.inr rfl)

/-- C9: for every result list, `renderGraphicalComparison` produces a chart if and
only if the list has exactly six entries and returns `null` for any other length,
the comparison button is offered under the same condition, and in both charts the
bars are the results in the order of the list: bar `i` carries the label and the
ratio of result `i`. -/
theorem C9_six_results_chart (results : List Result) :
    ((PageReplacementSimulation.renderGraphicalComparison results).isSome = true ↔
      results.length = 6) ∧
    (PageReplacementSimulation.renderGraphicalComparison results = none ↔
      results.length ≠ 6) ∧
    (PageReplacementSimulation.comparisonButtonOffered results = true ↔
      results.length = 6) ∧
    ∀ chart, PageReplacementSimulation.renderGraphicalComparison results = some chart →
      chart.faultBars.map (fun bar => bar.label) =
          results.map (fun result => result.algorithm) ∧
      chart.faultBars.map (fun bar => bar.value) =
          results.map PageReplacementSimulation.chartFaultRatio ∧
      chart.hitBars.map (fun bar => bar.label) =
          results.map (fun result => result.algorithm) ∧
      chart.hitBars.map (fun bar => bar.value) =
          results.map PageReplacementSimulation.chartHitRatio := by
  unfold PageReplacementSimulation.renderGraphicalComparison
    PageReplacementSimulation.comparisonButtonOffered
  by_cases h : results.length = 6
  · simp only [h, ne_eq, not_true_eq_false, if_false]
    refine ⟨by simp, by simp, by simp, ?_⟩
    intro chart hchart
    injection hchart with hchart
    subst hchart
    simp [List.map_map, Function.comp_def]
  · simp [h]

/-- C9, witness: a six-entry response gives a chart whose bars are labelled in the
order of the response; a one-entry response gives none. -/
theorem C9_six_results_chart_witness :
    (PageReplacementSimulation.renderGraphicalComparison sixResults).isSome = true ∧
    PageReplacementSimulation.renderGraphicalComparison [fifoResult] = none ∧
    PageReplacementSimulation.comparisonButtonOffered sixResults = true :=
  ⟨(C9_six_results_chart sixResults).1.mpr (by decide),
   (C9_six_results_chart [fifoResult]).2.1.mpr (by decide),
   (C9_six_results_chart sixResults).2.2.1.mpr (by decide)⟩

/-- C10: for every result with `total_hits + total_page_faults > 0` whose
`hit_ratio` is absent or equal to `hits / (hits + faults)` and whose `fault_ratio` is
absent or equal to `1 - hit_ratio`, the hit ratio and the fault ratio that the card
(of `frontend` and of `frontend01`) and the charts use are exactly
`total_hits / (total_hits + total_page_faults)` and
`total_page_faults / (total_hits + total_page_faults)`, in rational arithmetic, and
they sum to 1; a supplied ratio of `0` takes the fallback branch and gives the same
value. -/
theorem C10_ratios_exact (result : Result)
    (hpos : 0 < result.total_hits + result.total_page_faults)
    (hhit : result.hit_ratio = none ∨
      result.hit_ratio = some (.fin
        ((result.total_hits : ℚ) / ((result.total_hits : ℚ) + (result.total_page_faults : ℚ)))))
    (hfault : result.fault_ratio = none ∨
      result.fault_ratio = some (.fin
        (1 - (result.total_hits : ℚ) /
          ((result.total_hits : ℚ) + (result.total_page_faults : ℚ))))) :
    (PageReplacementSimulation.cardHitRatio result =
        .fin ((result.total_hits : ℚ) /
          ((result.total_hits : ℚ) + (result.total_page_faults : ℚ))) ∧
      PageReplacementSimulation.cardFaultRatio result =
        .fin ((result.total_page_faults : ℚ) /
          ((result.total_hits : ℚ) + (result.total_page_faults : ℚ)))) ∧
    (PageReplacementSimulation.chartHitRatio result =
        .fin ((result.total_hits : ℚ) /
          ((result.total_hits : ℚ) + (result.total_page_faults : ℚ))) ∧
      PageReplacementSimulation.chartFaultRatio result =
        .fin ((result.total_page_faults : ℚ) /
          ((result.total_hits : ℚ) + (result.total_page_faults : ℚ)))) ∧
    (PageReplacementSimulation01.cardHitRatio result =
        .fin ((result.total_hits : ℚ) /
          ((result.total_hits : ℚ) + (result.total_page_faults : ℚ))) ∧
      PageReplacementSimulation01.cardFaultRatio result =
        .fin ((result.total_page_faults : ℚ) /
          ((result.total_hits : ℚ) + (result.total_page_faults : ℚ)))) ∧
    (PageReplacementSimulation.cardHitRatio result).add
        (PageReplacementSimulation.cardFaultRatio result) = .fin 1 ∧
    (PageReplacementSimulation.chartHitRatio result).add
        (PageReplacementSimulation.chartFaultRatio result) = .fin 1 ∧
    (PageReplacementSimulation01.cardHitRatio result).add
        (PageReplacementSimulation01.cardFaultRatio result) = .fin 1 := by
  have hq : ((result.total_hits : ℚ) + (result.total_page_faults : ℚ)) ≠ 0 := by
    have : (0 : ℚ) < ((result.total_hits + result.total_page_faults : ℕ) : ℚ) := by
      exact_mod_cast hpos
    push_cast at this
    exact ne_of_gt this
  have hq' : ((result.total_page_faults : ℚ) + (result.total_hits : ℚ)) ≠ 0 := by
    rwa [add_comm]
  have hc : PageReplacementSimulation.computedHitRatio result =
      .fin ((result.total_hits : ℚ) /
        ((result.total_hits : ℚ) + (result.total_page_faults : ℚ))) := by
    simp only [PageReplacementSimulation.computedHitRatio, JSNumber.add, JSNumber.div, hq',
      if_false]
    rw [add_comm (result.total_page_faults : ℚ)]
  have fc : PageReplacementSimulation.computedFaultRatio result =
      .fin ((result.total_page_faults : ℚ) /
        ((result.total_hits : ℚ) + (result.total_page_faults : ℚ))) := by
    simp only [PageReplacementSimulation.computedFaultRatio, JSNumber.add, JSNumber.div,
      hq', if_false]
    rw [add_comm (result.total_page_faults : ℚ)]
  have hone : (1 : ℚ) - (result.total_hits : ℚ) /
        ((result.total_hits : ℚ) + (result.total_page_faults : ℚ)) =
      (result.total_page_faults : ℚ) /
        ((result.total_hits : ℚ) + (result.total_page_faults : ℚ)) := by
    field_simp
  have hsum : (result.total_hits : ℚ) /
        ((result.total_hits : ℚ) + (result.total_page_faults : ℚ)) +
      (result.total_page_faults : ℚ) /
        ((result.total_hits : ℚ) + (result.total_page_faults : ℚ)) = 1 := by
    field_simp
  have h1 : PageReplacementSimulation.cardHitRatio result =
      .fin ((result.total_hits : ℚ) /
        ((result.total_hits : ℚ) + (result.total_page_faults : ℚ))) := by
    unfold PageReplacementSimulation.cardHitRatio
    rcases hhit with h | h
    · rw [h]; exact hc
    · rw [h]
      simp only
      split
      · rfl
      · exact hc
  have h2 : PageReplacementSimulation.cardFaultRatio result =
      .fin ((result.total_page_faults : ℚ) /
        ((result.total_hits : ℚ) + (result.total_page_faults : ℚ))) := by
    unfold PageReplacementSimulation.cardFaultRatio
    rcases hfault with h | h
    · rw [h]; exact fc
    · rw [h]
      simp only
      split
      · rw [hone]
      · exact fc
  have h3 : PageReplacementSimulation.chartHitRatio result =
      .fin ((result.total_hits : ℚ) /
        ((result.total_hits : ℚ) + (result.total_page_faults : ℚ))) := by
    unfold PageReplacementSimulation.chartHitRatio PageReplacementSimulation.orNumber
    rcases hhit with h | h
    · rw [h]; exact hc
    · rw [h]
      simp only
      split
      · rfl
      · exact hc
  have h4 : PageReplacementSimulation.chartFaultRatio result =
      .fin ((result.total_page_faults : ℚ) /
        ((result.total_hits : ℚ) + (result.total_page_faults : ℚ))) := by
    unfold PageReplacementSimulation.chartFaultRatio PageReplacementSimulation.orNumber
    rcases hfault with h | h
    · rw [h]; exact fc
    · rw [h]
      simp only
      split
      · rw [hone]
      · exact fc
  have h5 : PageReplacementSimulation01.cardHitRatio result =
      .fin ((result.total_hits : ℚ) /
        ((result.total_hits : ℚ) + (result.total_page_faults : ℚ))) := hc
  have h6 : PageReplacementSimulation01.cardFaultRatio result =
      .fin ((result.total_page_faults : ℚ) /
        ((result.total_hits : ℚ) + (result.total_page_faults : ℚ))) := fc
  refine ⟨⟨h1, h2⟩, ⟨h3, h4⟩, ⟨h5, h6⟩, ?_, ?_, ?_⟩
  · rw [h1, h2]; simp only [JSNumber.add]; rw [hsum]
  · rw [h3, h4]; simp only [JSNumber.add]; rw [hsum]
  · rw [h5, h6]; simp only [JSNumber.add]; rw [hsum]

/-- C10, witness: a result with both ratios supplied (3 hits, 9 faults), and a
result without hits, whose supplied `hit_ratio` of `0` takes the fallback branch. -/
theorem C10_ratios_exact_witness :
    (PageReplacementSimulation.cardHitRatio fifoResult =
        .fin ((fifoResult.total_hits : ℚ) /
          ((fifoResult.total_hits : ℚ) + (fifoResult.total_page_faults : ℚ))) ∧
      PageReplacementSimulation.cardFaultRatio fifoResult =
        .fin ((fifoResult.total_page_faults : ℚ) /
          ((fifoResult.total_hits : ℚ) + (fifoResult.total_page_faults : ℚ)))) ∧
    (PageReplacementSimulation.chartHitRatio noHitResult =
        .fin ((noHitResult.total_hits : ℚ) /
          ((noHitResult.total_hits : ℚ) + (noHitResult.total_page_faults : ℚ))) ∧
      PageReplacementSimulation.chartFaultRatio noHitResult =
        .fin ((noHitResult.total_page_faults : ℚ) /
          ((noHitResult.total_hits : ℚ) + (noHitResult.total_page_faults : ℚ)))) :=
  ⟨(C10_ratios_exact fifoResult (by decide)
      (Or.inr (by simp [fifoResult])) (Or.inr (by simp [fifoResult]))).1,
   (C10_ratios_exact noHitResult (by decide)
      (Or.inr (by simp [noHitResult])) (Or.inr (by simp [noHitResult]))).2.1⟩

/-- C11, counterexample: for the result of an empty trace (no hits, no faults, both
ratios `0`) every ratio the UI computes for display is `NaN`, the value of `0 / 0`,
on the card of `frontend`, in its charts and on the card of `frontend01`. -/
theorem C11_counterexample :
    PageReplacementSimulation.cardHitRatio emptyTraceResult = .nan ∧
    PageReplacementSimulation.cardFaultRatio emptyTraceResult = .nan ∧
    PageReplacementSimulation.chartHitRatio emptyTraceResult = .nan ∧
    PageReplacementSimulation.chartFaultRatio emptyTraceResult = .nan ∧
    PageReplacementSimulation01.cardHitRatio emptyTraceResult = .nan ∧
    PageReplacementSimulation01.cardFaultRatio emptyTraceResult = .nan ∧
    (JSNumber.fin 0).div ((JSNumber.fin 0).add (JSNumber.fin 0)) = .nan := by
  simp [emptyTraceResult, PageReplacementSimulation.cardHitRatio,
    PageReplacementSimulation.cardFaultRatio, PageReplacementSimulation.chartHitRatio,
    PageReplacementSimulation.chartFaultRatio, PageReplacementSimulation.orNumber,
    PageReplacementSimulation.computedHitRatio, PageReplacementSimulation.computedFaultRatio,
    PageReplacementSimulation01.cardHitRatio, PageReplacementSimulation01.cardFaultRatio,
    JSNumber.toBoolean, JSNumber.add, JSNumber.div]

/-- C11, as amended: for a result with `total_hits = 0` and `total_page_faults = 0`
the quotient the UI computes is `0 / 0`, which is `NaN` and not `0`: the card of
`frontend01` always shows that quotient, and the card and the charts of `frontend`
show it whenever the ratio is absent from the result. -/
theorem C11_zero_total_quotient (result : Result) (hhits : result.total_hits = 0)
    (hfaults : result.total_page_faults = 0) :
    PageReplacementSimulation01.cardHitRatio result = .nan ∧
    PageReplacementSimulation01.cardFaultRatio result = .nan ∧
    (result.hit_ratio = none →
      PageReplacementSimulation.cardHitRatio result = .nan ∧
      PageReplacementSimulation.chartHitRatio result = .nan) ∧
    (result.fault_ratio = none →
      PageReplacementSimulation.cardFaultRatio result = .nan ∧
      PageReplacementSimulation.chartFaultRatio result = .nan) := by
  refine ⟨?_, ?_, ?_, ?_⟩
  · simp [PageReplacementSimulation01.cardHitRatio, hhits, hfaults, JSNumber.add,
      JSNumber.div]
  · simp [PageReplacementSimulation01.cardFaultRatio, hhits, hfaults, JSNumber.add,
      JSNumber.div]
  · intro h
    simp [PageReplacementSimulation.cardHitRatio, PageReplacementSimulation.chartHitRatio,
      PageReplacementSimulation.orNumber, PageReplacementSimulation.computedHitRatio, h,
      hhits, hfaults, JSNumber.add, JSNumber.div]
  · intro h
    simp [PageReplacementSimulation.cardFaultRatio,
      PageReplacementSimulation.chartFaultRatio, PageReplacementSimulation.orNumber,
      PageReplacementSimulation.computedFaultRatio, h, hhits, hfaults, JSNumber.add,
      JSNumber.div]

/-- C11, witness: a result of no hits and no faults that carries no ratios. -/
theorem C11_zero_total_quotient_witness :
    PageReplacementSimulation01.cardHitRatio
        { algorithm := "LRU", total_hits := 0, total_page_faults := 0 } = .nan ∧
    PageReplacementSimulation01.cardFaultRatio
        { algorithm := "LRU", total_hits := 0, total_page_faults := 0 } = .nan ∧
    PageReplacementSimulation.cardHitRatio
        { algorithm := "LRU", total_hits := 0, total_page_faults := 0 } = .nan :=
  let h := C11_zero_total_quotient
    { algorithm := "LRU", total_hits := 0, total_page_faults := 0 } rfl rfl
  ⟨h.1, h.2.1, (h.2.2.1 rfl).1⟩

namespace Engine

theorem step_counts (policy : Policy) (future : List Int) (stepNo : Nat) (page : Int)
    (run : Run) :
    (step policy future stepNo page run).hits + (step policy future stepNo page run).faults =
      run.hits + run.faults + 1 := by
  unfold step
  split
  · simp [record]; omega
  · simp only
    split
    · simp [record]; omega
    · split
      · simp [record]; omega
      · simp [record]; omega

theorem runTrace_counts (policy : Policy) (requests : List Int) :
    ∀ (stepNo : Nat) (run : Run),
      (runTrace policy stepNo requests run).hits +
          (runTrace policy stepNo requests run).faults =
        run.hits + run.faults + requests.length := by
  induction requests with
  | nil => intro stepNo run; simp [runTrace]
  | cons page rest ih =>
    intro stepNo run
    simp only [runTrace, List.length_cons]
    rw [ih, step_counts]
    omega

end Engine

/-- C12: for every valid input (a non-empty trace and at least one frame) and every
policy, the engine returns a result with
`total_hits + total_page_faults = len(requests)`, so the "Total Requests" figure of
the card, `total_page_faults + total_hits`, is the number of page requests of the
trace (in `frontend` and in `frontend01`). -/
theorem C12_total_requests (policy : Engine.Policy) (frameCount : Nat) (requests : List Int)
    (hframes : 1 ≤ frameCount) (htrace : requests ≠ []) :
    ∃ result, Engine.simulate policy frameCount requests = .ok result ∧
      result.total_hits + result.total_page_faults = requests.length ∧
      PageReplacementSimulation.totalRequests result = requests.length ∧
      PageReplacementSimulation01.totalRequests result = requests.length := by
  have hcount := Engine.runTrace_counts policy requests 1
    { frames := List.replicate frameCount none, hits := 0, faults := 0, history := [],
      pageTable := [] }
  simp only [Nat.zero_add] at hcount
  refine ⟨Engine.resultOf policy (Engine.runTrace policy 1 requests
    { frames := List.replicate frameCount none, hits := 0, faults := 0, history := [],
      pageTable := [] }), ?_, ?_, ?_, ?_⟩
  · unfold Engine.simulate
    rw [if_neg htrace, if_neg (by omega)]
  · simpa [Engine.resultOf] using hcount
  · simp only [PageReplacementSimulation.totalRequests, Engine.resultOf]
    omega
  · simp only [PageReplacementSimulation01.totalRequests, Engine.resultOf]
    omega

/-- C12, witness: LRU with three frames on the default trace of twelve requests. -/
theorem C12_total_requests_witness :
    ∃ result, Engine.simulate .lru 3 [1, 2, 3, 4, 1, 2, 5, 1, 2, 3, 4, 5] = .ok result ∧
      result.total_hits + result.total_page_faults = 12 ∧
      PageReplacementSimulation.totalRequests result = 12 ∧
      PageReplacementSimulation01.totalRequests result = 12 :=
  C12_total_requests .lru 3 [1, 2, 3, 4, 1, 2, 5, 1, 2, 3, 4, 5] (by decide) (by decide)

/-- C13: the default form posts the trace `[1,2,3,4,1,2,5,1,2,3,4,5]` with
`frames = 3` and `algorithm = "fifo"`, and FIFO with three frames on that trace
yields `total_page_faults = 9`, `total_hits = 3`, `hit_ratio = 0.25` and
`fault_ratio = 0.75`. -/
theorem C13_fifo_scenario :
    PageReplacementSimulation.requestData {} =
      [("requests",
          .arr (([1, 2, 3, 4, 1, 2, 5, 1, 2, 3, 4, 5] : List Nat).map
            (fun page => JSNumber.fin (page : ℚ)))),
       ("frames", .num (.fin 3)), ("algorithm", .str "fifo")] ∧
    ∃ result, Engine.simulate .fifo 3 [1, 2, 3, 4, 1, 2, 5, 1, 2, 3, 4, 5] = .ok result ∧
      result.total_page_faults = 9 ∧ result.total_hits = 3 ∧
      result.hit_ratio = some (.fin (1 / 4)) ∧ result.fault_ratio = some (.fin (3 / 4)) := by
  have hfaults : (Engine.runTrace .fifo 1 [1, 2, 3, 4, 1, 2, 5, 1, 2, 3, 4, 5]
      { frames := List.replicate 3 none, hits := 0, faults := 0, history := [],
        pageTable := [] }).faults = 9 := by decide
  have hhits : (Engine.runTrace .fifo 1 [1, 2, 3, 4, 1, 2, 5, 1, 2, 3, 4, 5]
      { frames := List.replicate 3 none, hits := 0, faults := 0, history := [],
        pageTable := [] }).hits = 3 := by decide
  refine ⟨by decide, Engine.resultOf .fifo (Engine.runTrace .fifo 1
    [1, 2, 3, 4, 1, 2, 5, 1, 2, 3, 4, 5]
    { frames := List.replicate 3 none, hits := 0, faults := 0, history := [],
      pageTable := [] }), rfl, ?_, ?_, ?_, ?_⟩
  · simpa [Engine.resultOf] using hfaults
  · simpa [Engine.resultOf] using hhits
  · simp only [Engine.resultOf, hhits, hfaults]
    norm_num
  · simp only [Engine.resultOf, hhits, hfaults]
    norm_num

/-- C14, the code at the failing input: for a result of two steps on three frames
the view has the headings `1, 2` and, while the frames field still reads `3`, three
rows; once the field is edited to `1` the same result is shown with one row, and
once it is edited to `5` with five rows, the last two of empty cells.  For every
result with a page table the headings are `1..n`, the cell of frame `f` at step `s`
shows `page_table[s][f]` or `-` for `null`, and the number of rows is the frames
field of the form, whatever the snapshots hold. -/
theorem C14_rows_follow_frames_field :
    PageReplacementSimulation.renderPageTable decimalLength { frames := "3" } twoStepResult =
      some { header := [1, 2],
             rows := [(0, [.page 1, .page 1]), (1, [.dash, .page 2]), (2, [.dash, .dash])] } ∧
    PageReplacementSimulation.renderPageTable decimalLength { frames := "1" } twoStepResult =
      some { header := [1, 2], rows := [(0, [.page 1, .page 1])] } ∧
    PageReplacementSimulation.renderPageTable decimalLength { frames := "5" } twoStepResult =
      some { header := [1, 2],
             rows := [(0, [.page 1, .page 1]), (1, [.dash, .page 2]), (2, [.dash, .dash]),
                      (3, [.blank, .blank]), (4, [.blank, .blank])] } ∧
    ∀ (toLength : String → Nat) (formData : PageReplacementSimulation.FormData)
      (result : Result) (pageTable : List (List (Option Int))),
      result.page_table = some pageTable →
      ∃ view, PageReplacementSimulation.renderPageTable toLength formData result = some view ∧
        view.header = (List.range pageTable.length).map (fun step => step + 1) ∧
        view.rows.length = toLength formData.frames ∧
        ∀ frameIdx, frameIdx < toLength formData.frames →
          view.rows[frameIdx]? =
            some (frameIdx, pageTable.map (fun frameState =>
              match frameState[frameIdx]? with
              | some (some p) => PageReplacementSimulation.Cell.page p
              | some none => .dash
              | none => .blank)) := by
  refine ⟨by decide, by decide, by decide, ?_⟩
  intro toLength formData result pageTable hpt
  refine ⟨_, by rw [PageReplacementSimulation.renderPageTable, hpt], ?_, ?_, ?_⟩
  · simp only
    apply List.ext_getElem
    · simp
    · intro i h1 h2
      simp [List.getElem_enum]
  · simp
  · intro frameIdx hlt
    simp [List.getElem?_map, List.getElem?_range hlt, PageReplacementSimulation.cellOf]

namespace PageReplacementSimulation

/-- The atomic `handleSubmit` is `submitStart` followed, for a valid text, by
`settle` on the answer to the posted body. -/
theorem handleSubmit_state (st : State) (fetch : JSObject → FetchOutcome) :
    (handleSubmit st fetch).state =
      if validateRequests st.formData.requests = true then
        settle (submitStart st) (fetch (requestData st.formData))
      else
        catchFinally (submitStart st)
          "Please enter valid comma-separated numbers for page requests" := by
  unfold handleSubmit
  by_cases hv : validateRequests st.formData.requests = true
  · simp only [hv, Bool.not_true, Bool.false_eq_true, if_false, if_true]
    cases hf : fetch (requestData st.formData) with
    | rejected m => simp [settle, submitStart]
    | notOk e => cases e <;> simp [settle, submitStart]
    | ok d => cases d <;> simp [settle, submitStart]
  · simp [hv, submitStart]

/-- The invariant of the component: a view is shown only for an index of
`results`, and no view is shown while a submission is pending. -/
theorem reachable_invariant (st : State) (h : Reachable st) :
    (st.viewMode ≠ none → st.activeResultIndex < st.results.length) ∧
    (st.loading = true → st.viewMode = none) := by
  induction h with
  | init => exact ⟨fun h => absurd rfl h, fun _ => rfl⟩
  | inputChange st name value _ ih => exact ih
  | submitInvalid st _ _ _ _ =>
    exact ⟨fun h => absurd rfl h, fun _ => rfl⟩
  | submitValid st _ _ _ _ =>
    exact ⟨fun h => absurd rfl h, fun _ => rfl⟩
  | settled st outcome _ hl ih =>
    have hnone : st.viewMode = none := ih.2 hl
    have hview : (settle st outcome).viewMode = none := by
      unfold settle
      split <;> simpa [catchFinally] using hnone
    exact ⟨fun h => absurd hview h, fun _ => hview⟩
  | cardClicked st index _ hl hi ih =>
    refine ⟨fun _ => hi, fun h => ?_⟩
    simp [clickCard, hl] at h
  | viewClicked st index mode _ hl hi ih =>
    refine ⟨fun _ => hi, fun h => ?_⟩
    simp [clickView, clickCard, hl] at h
  | comparisonToggled st _ _ ih => exact ih

end PageReplacementSimulation

/-- C15: in every reachable state of the simple form (input changes, submit, the
settling of a submission by success or failure, a click on a result card, a click
on a view button inside a card, which also runs the card's handler, the comparison
toggle), whenever a detail view is shown (`viewMode` is not `null`)
`activeResultIndex` is less than `results.length`, so `results[activeResultIndex]`,
the argument of `renderFinalMemoryState`, `renderPageTable` and `renderDetails`, is
a result and not `undefined`. -/
theorem C15_active_index_in_range (st : PageReplacementSimulation.State)
    (hreach : PageReplacementSimulation.Reachable st) (hview : st.viewMode ≠ none) :
    st.activeResultIndex < st.results.length ∧
    ∃ result, st.results[st.activeResultIndex]? = some result := by
  have hlt := (PageReplacementSimulation.reachable_invariant st hreach).1 hview
  exact ⟨hlt, st.results[st.activeResultIndex], List.getElem?_eq_getElem hlt⟩

/-- C15, witness: a six-result run whose sixth card is opened, followed by a
one-result run whose only card is opened: the state is reachable, shows the details
view, and its index `0` is within the one result. -/
theorem C15_active_index_in_range_witness :
    PageReplacementSimulation.Reachable afterSixThenOne ∧
    afterSixThenOne.viewMode = some .details ∧
    afterSixThenOne.activeResultIndex < afterSixThenOne.results.length ∧
    ∃ result, afterSixThenOne.results[afterSixThenOne.activeResultIndex]? = some result :=
  have hreach : PageReplacementSimulation.Reachable afterSixThenOne :=
    .viewClicked _ 0 .details
      (.settled _ (.ok (.ok [fifoResult]))
        (.submitValid _
          (.viewClicked _ 5 .final
            (.settled _ (.ok (.ok sixResults))
              (.submitValid _ .init rfl (by decide)) rfl)
            rfl (by decide))
          rfl (by decide))
        rfl)
      rfl (by decide)
  ⟨hreach, rfl, C15_active_index_in_range afterSixThenOne hreach (by decide)⟩

/-- C16, counterexample: for six results that all tie (3 hits and 1
fault each, hit ratio 0.75, fault ratio 0.25) every bar of the fault-ratio chart is
red (`#ff6b6b`) and every bar of the hit-ratio chart is green (`#51cf66`): each bar
is both best and worst, the fault chart tests `isWorst` first and the hit chart
tests `isBest` first. -/
theorem C16_counterexample :
    (PageReplacementSimulation.renderGraphicalComparison tiedResults).map
        (fun chart =>
          (chart.faultBars.map (fun bar => (bar.isBest, bar.isWorst, bar.backgroundColor)),
           chart.hitBars.map (fun bar => (bar.isBest, bar.isWorst, bar.backgroundColor)))) =
      some (List.replicate 6 (true, true, "#ff6b6b"),
            List.replicate 6 (true, true, "#51cf66")) := by
  simp [PageReplacementSimulation.renderGraphicalComparison, tiedResults, tiedResult,
    PageReplacementSimulation.chartHitRatio, PageReplacementSimulation.chartFaultRatio,
    PageReplacementSimulation.orNumber, JSNumber.toBoolean, mathMax, mathMin, isNaN,
    JSNumber.lt, JSNumber.strictEq, List.replicate]

/-! ## Lemmas on `formatKey` -/

theorem splitUnits_ne_nil (sep : Nat) (s : List Nat) : splitUnits sep s ≠ [] := by
  induction s with
  | nil => simp [splitUnits]
  | cons u us ih =>
    unfold splitUnits
    split
    · simp
    · split <;> simp

theorem join_append_cons (sep : Nat) (p w : List Nat) (ws : List (List Nat)) :
    join sep ((p ++ w) :: ws) = p ++ join sep (w :: ws) := by
  cases ws <;> simp [join]

theorem join_nil_cons (sep : Nat) (ws : List (List Nat)) (h : ws ≠ []) :
    join sep ([] :: ws) = sep :: join sep ws := by
  cases ws with
  | nil => exact absurd rfl h
  | cons w ws => simp [join]

/-- The words of `split`, every one capitalised and joined by spaces, are the
described format at a word start; with the first word left as it is they are the
described format inside a word. -/
theorem join_split_eq (toUpperCase : List Nat → List Nat) (hempty : toUpperCase [] = [])
    (key : List Nat) :
    join 32 ((splitUnits 95 key).map
        (fun word => toUpperCase (word.take 1) ++ word.drop 1)) =
      describedFormat toUpperCase true key ∧
    join 32 (match splitUnits 95 key with
      | [] => []
      | first :: rest =>
        first :: rest.map (fun word => toUpperCase (word.take 1) ++ word.drop 1)) =
      describedFormat toUpperCase false key := by
  induction key with
  | nil => simp [splitUnits, join, describedFormat, hempty]
  | cons u us ih =>
    by_cases hu : u = 95
    · have hne : (splitUnits 95 us).map
          (fun word => toUpperCase (word.take 1) ++ word.drop 1) ≠ [] := by
        intro h
        exact splitUnits_ne_nil 95 us (List.map_eq_nil_iff.mp h)
      simp only [splitUnits, hu, if_true, List.map_cons, List.take_nil, List.drop_nil, hempty,
        List.append_nil, describedFormat]
      rw [join_nil_cons _ _ hne, ih.1]
      exact ⟨rfl, rfl⟩
    · cases hs : splitUnits 95 us with
      | nil => exact absurd hs (splitUnits_ne_nil 95 us)
      | cons t ts =>
        rw [hs] at ih
        simp only [splitUnits, hu, if_false, hs, List.map_cons, List.take_succ_cons,
          List.take_zero, List.drop_succ_cons, List.drop_zero, describedFormat, if_true,
          Bool.false_eq_true]
        simp only at ih
        constructor
        · rw [join_append_cons, ih.2]
        · have h1 : (u :: t) = [u] ++ t := rfl
          rw [h1, join_append_cons, ih.2]

theorem describedFormat_ascii_eq (toUpperCase : List Nat → List Nat)
    (hup : AsciiUpperCase toUpperCase) (b : Bool) (l : List Nat) (h : ∀ u ∈ l, u < 128) :
    describedFormat toUpperCase b l = asciiFormat b l := by
  induction l generalizing b with
  | nil => rfl
  | cons u us ih =>
    have hu : u < 128 := h u (List.mem_cons_self _ _)
    have hus : ∀ x ∈ us, x < 128 := fun x hx => h x (List.mem_cons_of_mem _ hx)
    unfold describedFormat asciiFormat
    split
    · rw [ih true hus]
    · rw [ih false hus]
      cases b <;> simp [hup.2 u hu]

theorem asciiFormat_length (b : Bool) (l : List Nat) :
    (asciiFormat b l).length = l.length := by
  induction l generalizing b with
  | nil => rfl
  | cons u us ih =>
    unfold asciiFormat
    split <;> simp [ih]

theorem asciiFormat_ascii (b : Bool) (l : List Nat) (h : ∀ u ∈ l, u < 128) :
    ∀ u ∈ asciiFormat b l, u < 128 := by
  induction l generalizing b with
  | nil => intro u hu; simp [asciiFormat] at hu
  | cons a as ih =>
    have ha : a < 128 := h a (List.mem_cons_self _ _)
    have has : ∀ x ∈ as, x < 128 := fun x hx => h x (List.mem_cons_of_mem _ hx)
    intro u hu
    unfold asciiFormat at hu
    split at hu
    · rcases List.mem_cons.mp hu with rfl | hu
      · decide
      · exact ih true has u hu
    · rcases List.mem_cons.mp hu with rfl | hu
      · have hup : asciiUpper a < 128 := by unfold asciiUpper; split <;> omega
        split
        · exact hup
        · exact ha
      · exact ih false has u hu

theorem asciiUpper_idem (u : Nat) : asciiUpper (asciiUpper u) = asciiUpper u := by
  by_cases h : 97 ≤ u ∧ u ≤ 122
  · have h2 : ¬ (97 ≤ u - 32 ∧ u - 32 ≤ 122) := by omega
    have h1 : asciiUpper u = u - 32 := by unfold asciiUpper; rw [if_pos h]
    rw [h1]
    unfold asciiUpper
    rw [if_neg h2]
  · have h1 : asciiUpper u = u := by unfold asciiUpper; rw [if_neg h]
    rw [h1, h1]

theorem asciiUpper_ne_underscore (u : Nat) (hu : u ≠ 95) : asciiUpper u ≠ 95 := by
  unfold asciiUpper
  split <;> omega

theorem asciiFormat_fixed (b : Bool) (l : List Nat) :
    asciiFormat false (asciiFormat b l) = asciiFormat b l ∧
    asciiFormat true (asciiFormat true l) = asciiFormat true l := by
  induction l generalizing b with
  | nil => simp [asciiFormat]
  | cons u us ih =>
    have hsp : (32 : Nat) ≠ 95 := by decide
    have hspu : asciiUpper 32 = 32 := by decide
    by_cases hu : u = 95
    · simp only [asciiFormat, hu, if_true, hsp, if_false, hspu, (ih true).1,
        Bool.false_eq_true, and_self]
    · constructor
      · cases b
        · simp only [asciiFormat, hu, if_false, (ih false).1, Bool.false_eq_true]
        · simp only [asciiFormat, hu, if_false, if_true, asciiUpper_ne_underscore u hu,
            (ih false).1, Bool.false_eq_true]
      · simp only [asciiFormat, hu, if_false, if_true, asciiUpper_ne_underscore u hu,
          asciiUpper_idem, (ih false).1]

/-- C17: for every key, `formatKey` replaces every underscore by a space and
upper-cases the first character of each underscore-separated word, leaving all other
characters unchanged (`total_page_faults` becomes `Total Page Faults`); for every
ASCII key the output has the length of the input and `formatKey` is idempotent.  A
character is a UTF-16 code unit, as for `charAt`. -/
theorem C17_formatKey (toUpperCase : List Nat → List Nat) (key : List Nat)
    (hup : AsciiUpperCase toUpperCase) :
    formatKey toUpperCase key = describedFormat toUpperCase true key ∧
    formatKey toUpperCase (utf16 "total_page_faults") = utf16 "Total Page Faults" ∧
    ((∀ u ∈ key, u < 128) →
      (formatKey toUpperCase key).length = key.length ∧
      formatKey toUpperCase (formatKey toUpperCase key) = formatKey toUpperCase key) := by
  have hgen : ∀ k : List Nat, formatKey toUpperCase k = describedFormat toUpperCase true k :=
    fun k => (join_split_eq toUpperCase hup.1 k).1
  have hasc : ∀ k : List Nat, (∀ u ∈ k, u < 128) →
      formatKey toUpperCase k = asciiFormat true k :=
    fun k hk => by rw [hgen k, describedFormat_ascii_eq toUpperCase hup true k hk]
  refine ⟨hgen key, ?_, ?_⟩
  · rw [hasc _ (by decide)]
    decide
  · intro hascii
    have h1 := hasc key hascii
    refine ⟨by rw [h1, asciiFormat_length], ?_⟩
    rw [hasc _ (by rw [h1]; exact asciiFormat_ascii true _ hascii), h1]
    exact (asciiFormat_fixed true key).2

/-- C17, witness: the ASCII upper-casing and the key `hit_ratio`. -/
theorem C17_formatKey_witness :
    formatKey asciiToUpperCase (utf16 "hit_ratio") = utf16 "Hit Ratio" ∧
    formatKey asciiToUpperCase (utf16 "total_page_faults") = utf16 "Total Page Faults" ∧
    (formatKey asciiToUpperCase (utf16 "hit_ratio")).length = (utf16 "hit_ratio").length ∧
    formatKey asciiToUpperCase (formatKey asciiToUpperCase (utf16 "hit_ratio")) =
      formatKey asciiToUpperCase (utf16 "hit_ratio") :=
  have h := C17_formatKey asciiToUpperCase (utf16 "hit_ratio") ⟨rfl, fun _ _ => rfl⟩
  ⟨by decide, h.2.1, (h.2.2 (by decide)).1, (h.2.2 (by decide)).2⟩

/-! ## Lemmas on `Math.max` and `Math.min` -/

theorem foldl_max_fin (l : List JSNumber) (hfin : ∀ x ∈ l, ∃ q, x = JSNumber.fin q) :
    ∀ a : ℚ, ∃ m : ℚ,
      l.foldl (fun acc x => if isNaN acc || isNaN x then JSNumber.nan
        else if acc.lt x then x else acc) (.fin a) = .fin m ∧
      (m = a ∨ JSNumber.fin m ∈ l) ∧ a ≤ m ∧ ∀ q, JSNumber.fin q ∈ l → q ≤ m := by
  induction l with
  | nil => intro a; exact ⟨a, rfl, Or.inl rfl, le_refl a, fun q hq => by simp at hq⟩
  | cons x xs ih =>
    intro a
    obtain ⟨q, rfl⟩ := hfin x (List.mem_cons_self _ _)
    have hxs : ∀ y ∈ xs, ∃ q, y = JSNumber.fin q :=
      fun y hy => hfin y (List.mem_cons_of_mem _ hy)
    by_cases hlt : a < q
    · obtain ⟨m, hm, hmem, hle, hall⟩ := ih hxs q
      refine ⟨m, ?_, ?_, le_trans (le_of_lt hlt) hle, ?_⟩
      · simpa [List.foldl, isNaN, JSNumber.lt, hlt] using hm
      · rcases hmem with h | h
        · exact Or.inr (by rw [h]; exact List.mem_cons_self _ _)
        · exact Or.inr (List.mem_cons_of_mem _ h)
      · intro q' hq'
        rcases List.mem_cons.mp hq' with h | h
        · injection h with h; rw [h]; exact hle
        · exact hall q' h
    · obtain ⟨m, hm, hmem, hle, hall⟩ := ih hxs a
      refine ⟨m, ?_, ?_, hle, ?_⟩
      · simpa [List.foldl, isNaN, JSNumber.lt, hlt] using hm
      · rcases hmem with h | h
        · exact Or.inl h
        · exact Or.inr (List.mem_cons_of_mem _ h)
      · intro q' hq'
        rcases List.mem_cons.mp hq' with h | h
        · injection h with h; rw [h]; exact le_trans (not_lt.mp hlt) hle
        · exact hall q' h

theorem foldl_min_fin (l : List JSNumber) (hfin : ∀ x ∈ l, ∃ q, x = JSNumber.fin q) :
    ∀ a : ℚ, ∃ m : ℚ,
      l.foldl (fun acc x => if isNaN acc || isNaN x then JSNumber.nan
        else if x.lt acc then x else acc) (.fin a) = .fin m ∧
      (m = a ∨ JSNumber.fin m ∈ l) ∧ m ≤ a ∧ ∀ q, JSNumber.fin q ∈ l → m ≤ q := by
  induction l with
  | nil => intro a; exact ⟨a, rfl, Or.inl rfl, le_refl a, fun q hq => by simp at hq⟩
  | cons x xs ih =>
    intro a
    obtain ⟨q, rfl⟩ := hfin x (List.mem_cons_self _ _)
    have hxs : ∀ y ∈ xs, ∃ q, y = JSNumber.fin q :=
      fun y hy => hfin y (List.mem_cons_of_mem _ hy)
    by_cases hlt : q < a
    · obtain ⟨m, hm, hmem, hle, hall⟩ := ih hxs q
      refine ⟨m, ?_, ?_, le_trans hle (le_of_lt hlt), ?_⟩
      · simpa [List.foldl, isNaN, JSNumber.lt, hlt] using hm
      · rcases hmem with h | h
        · exact Or.inr (by rw [h]; exact List.mem_cons_self _ _)
        · exact Or.inr (List.mem_cons_of_mem _ h)
      · intro q' hq'
        rcases List.mem_cons.mp hq' with h | h
        · injection h with h; rw [h]; exact hle
        · exact hall q' h
    · obtain ⟨m, hm, hmem, hle, hall⟩ := ih hxs a
      refine ⟨m, ?_, ?_, hle, ?_⟩
      · simpa [List.foldl, isNaN, JSNumber.lt, hlt] using hm
      · rcases hmem with h | h
        · exact Or.inl h
        · exact Or.inr (List.mem_cons_of_mem _ h)
      · intro q' hq'
        rcases List.mem_cons.mp hq' with h | h
        · injection h with h; rw [h]; exact le_trans hle (not_lt.mp hlt)
        · exact hall q' h

/-- On a non-empty list of finite Numbers `Math.max` is a member that no member
exceeds. -/
theorem mathMax_fin (l : List JSNumber) (hne : l ≠ [])
    (hfin : ∀ x ∈ l, ∃ q, x = JSNumber.fin q) :
    ∃ m : ℚ, mathMax l = .fin m ∧ JSNumber.fin m ∈ l ∧ ∀ q, JSNumber.fin q ∈ l → q ≤ m := by
  cases l with
  | nil => exact absurd rfl hne
  | cons x xs =>
    obtain ⟨q, rfl⟩ := hfin _ (List.mem_cons_self _ _)
    obtain ⟨m, hm, hmem, hle, hall⟩ :=
      foldl_max_fin xs (fun y hy => hfin y (List.mem_cons_of_mem _ hy)) q
    refine ⟨m, ?_, ?_, ?_⟩
    · simpa [mathMax, List.foldl, isNaN, JSNumber.lt] using hm
    · rcases hmem with h | h
      · rw [h]; exact List.mem_cons_self _ _
      · exact List.mem_cons_of_mem _ h
    · intro q' hq'
      rcases List.mem_cons.mp hq' with h | h
      · injection h with h; rw [h]; exact hle
      · exact hall q' h

/-- On a non-empty list of finite Numbers `Math.min` is a member that exceeds no
member. -/
theorem mathMin_fin (l : List JSNumber) (hne : l ≠ [])
    (hfin : ∀ x ∈ l, ∃ q, x = JSNumber.fin q) :
    ∃ m : ℚ, mathMin l = .fin m ∧ JSNumber.fin m ∈ l ∧ ∀ q, JSNumber.fin q ∈ l → m ≤ q := by
  cases l with
  | nil => exact absurd rfl hne
  | cons x xs =>
    obtain ⟨q, rfl⟩ := hfin _ (List.mem_cons_self _ _)
    obtain ⟨m, hm, hmem, hle, hall⟩ :=
      foldl_min_fin xs (fun y hy => hfin y (List.mem_cons_of_mem _ hy)) q
    refine ⟨m, ?_, ?_, ?_⟩
    · simpa [mathMin, List.foldl, isNaN, JSNumber.lt] using hm
    · rcases hmem with h | h
      · rw [h]; exact List.mem_cons_self _ _
      · exact List.mem_cons_of_mem _ h
    · intro q' hq'
      rcases List.mem_cons.mp hq' with h | h
      · injection h with h; rw [h]; exact hle
      · exact hall q' h

/-- Two Numbers whose sum is `1` are finite and the second is `1` minus the first. -/
theorem add_eq_one (x y : JSNumber) (h : x.add y = .fin 1) :
    ∃ f : ℚ, y = .fin f ∧ x = .fin (1 - f) := by
  cases x <;> cases y <;> simp [JSNumber.add] at h
  rename_i a b
  exact ⟨b, rfl, by rw [← h]; simp⟩

namespace PageReplacementSimulation

/-- For a non-empty list of results whose two chart ratios sum to `1`, the four
extremes `renderGraphicalComparison` computes are finite and mirror each other, and
a result has an extreme ratio exactly when its fault ratio is that extreme. -/
theorem ratio_extremes (results : List Result) (hne : results ≠ [])
    (hsum : ∀ r ∈ results, (chartHitRatio r).add (chartFaultRatio r) = .fin 1) :
    ∃ lo hi : ℚ,
      mathMin (results.map chartFaultRatio) = .fin lo ∧
      mathMax (results.map chartFaultRatio) = .fin hi ∧
      mathMax (results.map chartHitRatio) = .fin (1 - lo) ∧
      mathMin (results.map chartHitRatio) = .fin (1 - hi) ∧
      ∀ r ∈ results, ∃ f : ℚ,
        chartFaultRatio r = .fin f ∧ chartHitRatio r = .fin (1 - f) ∧ lo ≤ f ∧ f ≤ hi ∧
        hasMinFaultRatio results r = decide (f = lo) ∧
        hasMaxFaultRatio results r = decide (f = hi) ∧
        hasMaxHitRatio results r = decide (f = lo) ∧
        hasMinHitRatio results r = decide (f = hi) := by
  have hfin : ∀ r ∈ results, ∃ f : ℚ,
      chartFaultRatio r = .fin f ∧ chartHitRatio r = .fin (1 - f) :=
    fun r hr => add_eq_one _ _ (hsum r hr)
  have hmapne : ∀ g : Result → JSNumber, results.map g ≠ [] :=
    fun g h => hne (List.map_eq_nil_iff.mp h)
  have hffin : ∀ x ∈ results.map chartFaultRatio, ∃ q, x = JSNumber.fin q := by
    intro x hx
    obtain ⟨r, hr, rfl⟩ := List.mem_map.mp hx
    obtain ⟨f, hf, _⟩ := hfin r hr
    exact ⟨f, hf⟩
  have hhfin : ∀ x ∈ results.map chartHitRatio, ∃ q, x = JSNumber.fin q := by
    intro x hx
    obtain ⟨r, hr, rfl⟩ := List.mem_map.mp hx
    obtain ⟨f, _, hh⟩ := hfin r hr
    exact ⟨1 - f, hh⟩
  obtain ⟨lo, hlo, hlomem, hloall⟩ := mathMin_fin _ (hmapne _) hffin
  obtain ⟨hi, hhi, hhimem, hhiall⟩ := mathMax_fin _ (hmapne _) hffin
  obtain ⟨mh, hmh, hmhmem, hmhall⟩ := mathMax_fin _ (hmapne _) hhfin
  obtain ⟨nh, hnh, hnhmem, hnhall⟩ := mathMin_fin _ (hmapne _) hhfin
  obtain ⟨rlo, hrlo, hrloF⟩ := List.mem_map.mp hlomem
  obtain ⟨rhi, hrhi, hrhiF⟩ := List.mem_map.mp hhimem
  have hbound : ∀ r ∈ results, ∀ f, chartFaultRatio r = .fin f → lo ≤ f ∧ f ≤ hi := by
    intro r hr f hf
    have hm : JSNumber.fin f ∈ results.map chartFaultRatio := by
      rw [← hf]; exact List.mem_map_of_mem _ hr
    exact ⟨hloall f hm, hhiall f hm⟩
  have hHlo : chartHitRatio rlo = .fin (1 - lo) := by
    obtain ⟨f, hf, hh⟩ := hfin rlo hrlo
    rw [hrloF] at hf; injection hf with hf; rw [hf]; exact hh
  have hHhi : chartHitRatio rhi = .fin (1 - hi) := by
    obtain ⟨f, hf, hh⟩ := hfin rhi hrhi
    rw [hrhiF] at hf; injection hf with hf; rw [hf]; exact hh
  have hmheq : mh = 1 - lo := by
    obtain ⟨r, hr, hrH⟩ := List.mem_map.mp hmhmem
    obtain ⟨f, hf, hh⟩ := hfin r hr
    rw [hh] at hrH; injection hrH with hrH
    have h1 := (hbound r hr f hf).1
    have h2 : 1 - lo ≤ mh := hmhall _ (by rw [← hHlo]; exact List.mem_map_of_mem _ hrlo)
    linarith
  have hnheq : nh = 1 - hi := by
    obtain ⟨r, hr, hrH⟩ := List.mem_map.mp hnhmem
    obtain ⟨f, hf, hh⟩ := hfin r hr
    rw [hh] at hrH; injection hrH with hrH
    have h1 := (hbound r hr f hf).2
    have h2 : nh ≤ 1 - hi := hnhall _ (by rw [← hHhi]; exact List.mem_map_of_mem _ hrhi)
    linarith
  refine ⟨lo, hi, hlo, hhi, by rw [hmh, hmheq], by rw [hnh, hnheq], ?_⟩
  intro r hr
  obtain ⟨f, hf, hh⟩ := hfin r hr
  obtain ⟨h1, h2⟩ := hbound r hr f hf
  refine ⟨f, hf, hh, h1, h2, ?_, ?_, ?_, ?_⟩
  · rw [Bool.eq_iff_iff]
    simp only [hasMinFaultRatio, List.all_eq_true, decide_eq_true_eq, hf]
    constructor
    · intro hall
      have := hall rlo hrlo
      rw [hrloF] at this
      simp [JSNumber.lt] at this
      linarith
    · intro heq r' hr'
      obtain ⟨f', hf', _⟩ := hfin r' hr'
      have := (hbound r' hr' f' hf').1
      rw [hf']
      simp [JSNumber.lt]
      linarith
  · rw [Bool.eq_iff_iff]
    simp only [hasMaxFaultRatio, List.all_eq_true, decide_eq_true_eq, hf]
    constructor
    · intro hall
      have := hall rhi hrhi
      rw [hrhiF] at this
      simp [JSNumber.lt] at this
      linarith
    · intro heq r' hr'
      obtain ⟨f', hf', _⟩ := hfin r' hr'
      have := (hbound r' hr' f' hf').2
      rw [hf']
      simp [JSNumber.lt]
      linarith
  · rw [Bool.eq_iff_iff]
    simp only [hasMaxHitRatio, List.all_eq_true, decide_eq_true_eq, hh]
    constructor
    · intro hall
      have := hall rlo hrlo
      rw [hHlo] at this
      simp [JSNumber.lt] at this
      linarith
    · intro heq r' hr'
      obtain ⟨f', hf', hh'⟩ := hfin r' hr'
      have := (hbound r' hr' f' hf').1
      rw [hh']
      simp [JSNumber.lt]
      linarith
  · rw [Bool.eq_iff_iff]
    simp only [hasMinHitRatio, List.all_eq_true, decide_eq_true_eq, hh]
    constructor
    · intro hall
      have := hall rhi hrhi
      rw [hHhi] at this
      simp [JSNumber.lt] at this
      linarith
    · intro heq r' hr'
      obtain ⟨f', hf', hh'⟩ := hfin r' hr'
      have := (hbound r' hr' f' hf').2
      rw [hh']
      simp [JSNumber.lt]
      linarith

end PageReplacementSimulation

/-- In exact arithmetic: when the two chart ratios of every result sum to `1` and the
fault ratios are not all equal, both charts colour the bars as described. -/
theorem colours_of_exact_sum (results : List Result) (chart : PageReplacementSimulation.Chart)
    (hchart : PageReplacementSimulation.renderGraphicalComparison results = some chart)
    (hsum : ∀ r ∈ results, 0 < r.total_hits + r.total_page_faults ∧
      (PageReplacementSimulation.chartHitRatio r).add
        (PageReplacementSimulation.chartFaultRatio r) = .fin 1)
    (hdiff : ∃ r ∈ results, ∃ r' ∈ results,
      PageReplacementSimulation.chartFaultRatio r ≠
        PageReplacementSimulation.chartFaultRatio r') :
    results.length = 6 ∧
    chart.faultBars.map (fun bar => bar.backgroundColor) =
      results.map (PageReplacementSimulation.describedColour results) ∧
    chart.hitBars.map (fun bar => bar.backgroundColor) =
      results.map (PageReplacementSimulation.describedColour results) ∧
    ∀ r ∈ results,
      PageReplacementSimulation.hasMinFaultRatio results r =
        PageReplacementSimulation.hasMaxHitRatio results r ∧
      PageReplacementSimulation.hasMaxFaultRatio results r =
        PageReplacementSimulation.hasMinHitRatio results r ∧
      ¬ (PageReplacementSimulation.hasMinFaultRatio results r = true ∧
          PageReplacementSimulation.hasMaxFaultRatio results r = true) := by
  have hlen : results.length = 6 := by
    by_contra h
    simp [PageReplacementSimulation.renderGraphicalComparison, h] at hchart
  have hne : results ≠ [] := by
    intro h; rw [h] at hlen; simp at hlen
  obtain ⟨lo, hi, hlo, hhi, hmh, hnh, hall⟩ :=
    PageReplacementSimulation.ratio_extremes results hne (fun r hr => (hsum r hr).2)
  have hlohi : lo ≠ hi := by
    obtain ⟨r, hr, r', hr', hne'⟩ := hdiff
    obtain ⟨f, hf, _, h1, h2, _⟩ := hall r hr
    obtain ⟨f', hf', _, h1', h2', _⟩ := hall r' hr'
    intro heq
    apply hne'
    rw [hf, hf']
    congr 1
    linarith
  simp only [PageReplacementSimulation.renderGraphicalComparison, hlen, ne_eq,
    not_true_eq_false, if_false, Option.some.injEq] at hchart
  subst hchart
  refine ⟨hlen, ?_, ?_, ?_⟩
  · simp only [List.map_map]
    apply List.map_congr_left
    intro r hr
    obtain ⟨f, hf, hh, _, _, hmin, hmax, _, _⟩ := hall r hr
    simp only [Function.comp, PageReplacementSimulation.describedColour, hmin, hmax, hf, hhi,
      hlo, JSNumber.strictEq, decide_eq_true_eq, JSNumber.fin.injEq]
    by_cases h1 : f = hi
    · have h2 : f ≠ lo := fun h => hlohi (h.symm.trans h1)
      simp [h1, h2, Ne.symm hlohi]
    · simp [h1]
  · simp only [List.map_map]
    apply List.map_congr_left
    intro r hr
    obtain ⟨f, hf, hh, _, _, hmin, hmax, _, _⟩ := hall r hr
    have e1 : (1 - f = 1 - lo) ↔ f = lo := by constructor <;> intro h <;> linarith
    have e2 : (1 - f = 1 - hi) ↔ f = hi := by constructor <;> intro h <;> linarith
    simp only [Function.comp, PageReplacementSimulation.describedColour, hmin, hmax, hh, hmh,
      hnh, JSNumber.strictEq, decide_eq_true_eq, JSNumber.fin.injEq, e1, e2]
  · intro r hr
    obtain ⟨f, hf, hh, _, _, hmin, hmax, hmaxh, hminh⟩ := hall r hr
    refine ⟨by rw [hmin, hmaxh], by rw [hmax, hminh], ?_⟩
    rw [hmin, hmax]
    simp only [decide_eq_true_eq]
    intro h
    exact hlohi (h.1.symm.trans h.2)


/-- The chart ratios of a result whose ratios are supplied, a supplied `0` coming
with a zero counter, are the supplied ratios: no quotient other than `0/n` is
evaluated. -/
theorem chart_ratios_supplied (r : Result) (h f : ℚ)
    (hpos : 0 < r.total_hits + r.total_page_faults)
    (hh : r.hit_ratio = some (.fin h)) (hf : r.fault_ratio = some (.fin f))
    (hh0 : h = 0 → r.total_hits = 0) (hf0 : f = 0 → r.total_page_faults = 0) :
    PageReplacementSimulation.chartHitRatio r = .fin h ∧
    PageReplacementSimulation.chartFaultRatio r = .fin f := by
  constructor
  · by_cases h0 : h = 0
    · have hz := hh0 h0
      simp [PageReplacementSimulation.chartHitRatio, PageReplacementSimulation.orNumber, hh,
        JSNumber.toBoolean, h0, PageReplacementSimulation.computedHitRatio, hz,
        JSNumber.add, JSNumber.div]
      intro h'
      have : 0 < r.total_page_faults := by omega
      omega
    · simp [PageReplacementSimulation.chartHitRatio, PageReplacementSimulation.orNumber, hh,
        JSNumber.toBoolean, h0]
  · by_cases f0 : f = 0
    · have hz := hf0 f0
      simp [PageReplacementSimulation.chartFaultRatio, PageReplacementSimulation.orNumber,
        hf, JSNumber.toBoolean, f0, PageReplacementSimulation.computedFaultRatio, hz,
        JSNumber.add, JSNumber.div]
      intro h'
      have : 0 < r.total_hits := by omega
      omega
    · simp [PageReplacementSimulation.chartFaultRatio, PageReplacementSimulation.orNumber,
        hf, JSNumber.toBoolean, f0]

/-- C16, as amended: for every six-result list in which each result has
`total_hits + total_page_faults > 0` and supplies a `hit_ratio` and a `fault_ratio`
that sum to exactly 1 (a supplied `0` coming with a zero counter), and in which the
fault ratios are not all equal, the charts show the supplied ratios and each
result's bar receives the same colour in the fault-ratio chart and in the hit-ratio
chart: green exactly when it has the minimum fault ratio (equivalently the maximum
hit ratio), red exactly when it has the maximum fault ratio (equivalently the
minimum hit ratio), blue otherwise, also when several results tie for the minimum or
for the maximum.  Under these hypotheses the UI evaluates no quotient other than
`0/n`, so the doubles it compares are the numbers compared here. -/
theorem C16_bar_colours (results : List Result) (chart : PageReplacementSimulation.Chart)
    (hchart : PageReplacementSimulation.renderGraphicalComparison results = some chart)
    (hexact : ∀ r ∈ results, 0 < r.total_hits + r.total_page_faults ∧
      ∃ h f : ℚ, r.hit_ratio = some (.fin h) ∧ r.fault_ratio = some (.fin f) ∧ h + f = 1 ∧
        (h = 0 → r.total_hits = 0) ∧ (f = 0 → r.total_page_faults = 0))
    (hdiff : ∃ r ∈ results, ∃ r' ∈ results, r.fault_ratio ≠ r'.fault_ratio) :
    results.length = 6 ∧
    (∀ r ∈ results,
      r.hit_ratio = some (PageReplacementSimulation.chartHitRatio r) ∧
      r.fault_ratio = some (PageReplacementSimulation.chartFaultRatio r)) ∧
    chart.faultBars.map (fun bar => bar.backgroundColor) =
      results.map (PageReplacementSimulation.describedColour results) ∧
    chart.hitBars.map (fun bar => bar.backgroundColor) =
      results.map (PageReplacementSimulation.describedColour results) ∧
    ∀ r ∈ results,
      PageReplacementSimulation.hasMinFaultRatio results r =
        PageReplacementSimulation.hasMaxHitRatio results r ∧
      PageReplacementSimulation.hasMaxFaultRatio results r =
        PageReplacementSimulation.hasMinHitRatio results r ∧
      ¬ (PageReplacementSimulation.hasMinFaultRatio results r = true ∧
          PageReplacementSimulation.hasMaxFaultRatio results r = true) := by
  have hsup : ∀ r ∈ results,
      r.hit_ratio = some (PageReplacementSimulation.chartHitRatio r) ∧
      r.fault_ratio = some (PageReplacementSimulation.chartFaultRatio r) ∧
      (PageReplacementSimulation.chartHitRatio r).add
        (PageReplacementSimulation.chartFaultRatio r) = .fin 1 := by
    intro r hr
    obtain ⟨hpos, h, f, hh, hf, hsum, hh0, hf0⟩ := hexact r hr
    obtain ⟨e1, e2⟩ := chart_ratios_supplied r h f hpos hh hf hh0 hf0
    refine ⟨by rw [e1, hh], by rw [e2, hf], ?_⟩
    rw [e1, e2]
    simp only [JSNumber.add]
    rw [hsum]
  have hdiff' : ∃ r ∈ results, ∃ r' ∈ results,
      PageReplacementSimulation.chartFaultRatio r ≠
        PageReplacementSimulation.chartFaultRatio r' := by
    obtain ⟨r, hr, r', hr', hne⟩ := hdiff
    refine ⟨r, hr, r', hr', fun heq => hne ?_⟩
    rw [(hsup r hr).2.1, (hsup r' hr').2.1, heq]
  have hmain := colours_of_exact_sum results chart hchart
    (fun r hr => ⟨(hexact r hr).1, (hsup r hr).2.2⟩) hdiff'
  exact ⟨hmain.1, fun r hr => ⟨(hsup r hr).1, (hsup r hr).2.1⟩, hmain.2⟩

/-- C16, witness: six results of sixteen requests each with the ratios supplied, of
which the third has the fewest faults and the fifth, without a hit, the most. -/
theorem C16_bar_colours_witness :
    ∃ chart, PageReplacementSimulation.renderGraphicalComparison suppliedResults =
        some chart ∧
      chart.faultBars.map (fun bar => bar.backgroundColor) =
        suppliedResults.map (PageReplacementSimulation.describedColour suppliedResults) ∧
      chart.hitBars.map (fun bar => bar.backgroundColor) =
        suppliedResults.map (PageReplacementSimulation.describedColour suppliedResults) := by
  have hsome : (PageReplacementSimulation.renderGraphicalComparison suppliedResults).isSome =
      true := by
    simp [PageReplacementSimulation.renderGraphicalComparison, suppliedResults]
  obtain ⟨chart, hchart⟩ := Option.isSome_iff_exists.mp hsome
  have h := C16_bar_colours suppliedResults chart hchart
    (by
      intro r hr
      simp only [suppliedResults, List.mem_cons, List.mem_singleton, List.not_mem_nil,
        or_false] at hr
      rcases hr with rfl | rfl | rfl | rfl | rfl | rfl
      · exact ⟨by decide, 1 / 4, 3 / 4, rfl, rfl, by norm_num, by norm_num, by norm_num⟩
      · exact ⟨by decide, 1 / 8, 7 / 8, rfl, rfl, by norm_num, by norm_num, by norm_num⟩
      · exact ⟨by decide, 3 / 8, 5 / 8, rfl, rfl, by norm_num, by norm_num, by norm_num⟩
      · exact ⟨by decide, 1 / 8, 7 / 8, rfl, rfl, by norm_num, by norm_num, by norm_num⟩
      · exact ⟨by decide, 0, 1, rfl, rfl, by norm_num, fun _ => rfl, by norm_num⟩
      · exact ⟨by decide, 1 / 4, 3 / 4, rfl, rfl, by norm_num, by norm_num, by norm_num⟩)
    ⟨suppliedResult "FIFO" 4 12 (1 / 4) (3 / 4), by simp [suppliedResults],
      suppliedResult "MRU" 0 16 0 1, by simp [suppliedResults], by
      simp [suppliedResult]
      norm_num⟩
  exact ⟨chart, hchart, h.2.2.1, h.2.2.2.1⟩

end PageSim
